import Mathlib

/-!
# Gatling: formal verification of spec claims against the source

This file shallowly embeds the parts of the Gatling renderer that the
spec's claims are about, and proves or refutes each claim.

Embedding conventions:
* GLSL/C floating-point scalars are modelled as exact rationals (`ℚ`)
  except for the sRGB gamma curve, which needs real exponentiation and is
  modelled over `ℝ`.
* Machine integers are modelled as `ℕ`; 32-bit wrap-around is irrelevant
  at every use site that a claim touches (bit masks keep all values below
  `2^32`), and where the source relies on a 32-bit idiom (e.g. clearing a
  bit with `& ~(1u << i)`) the doc comment of the embedding states the
  `ℕ` translation used.
* Fallible C functions returning `bool` + out-parameters are modelled as
  `Except String` / `Option` values.
* Fixed-size C arrays written through a running counter are modelled as
  `List`s; "the write index" of an append is the length of the list
  before the append.
-/

set_option autoImplicit false

namespace Gatling

/-! ## C9 component: render-pass orchestrator, frame-change detection
Source: `src/hdGatling/RenderPass.cpp`, `HdGatlingRenderPass::_Execute`.
The member variables `m_last*` persist across frames; each `_Execute`
reads the current counters, compares, and conditionally calls
`giInvalidateFramebuffer()`. -/

/-- The persistent `m_last*` members of `HdGatlingRenderPass` that the
change detection in `_Execute` compares against. -/
structure RenderPassVersionState where
  lastSceneStateVersion : ℕ
  lastSprimIndexVersion : ℕ
  lastRenderSettingsVersion : ℕ
  lastVisChangeCount : ℕ
  lastAovId : ℕ
deriving DecidableEq, Repr

/-- The per-frame values `_Execute` reads from the change tracker, the
render delegate and the AOV binding. -/
structure FrameVersions where
  sceneStateVersion : ℕ
  sprimIndexVersion : ℕ
  visibilityChangeCount : ℕ
  renderSettingsStateVersion : ℕ
  aovId : ℕ
deriving DecidableEq, Repr

/-- Embedding of the change-detection block of
`HdGatlingRenderPass::_Execute` (RenderPass.cpp lines 703-723): computes
`sceneChanged`, `renderSettingsChanged`, `visibilityChanged`,
`aovChanged`, decides whether `giInvalidateFramebuffer()` is called, and
stores all five current values into the `m_last*` members.  Note the
source compares only four of the read values: `sprimIndexVersion` is
stored into `m_lastSprimIndexVersion` but does not appear in the
invalidation condition. -/
def executeVersionCheck (st : RenderPassVersionState) (f : FrameVersions) :
    Bool × RenderPassVersionState :=
  let sceneChanged := f.sceneStateVersion ≠ st.lastSceneStateVersion
  let renderSettingsChanged := f.renderSettingsStateVersion ≠ st.lastRenderSettingsVersion
  let visibilityChanged := st.lastVisChangeCount ≠ f.visibilityChangeCount
  let aovChanged := f.aovId ≠ st.lastAovId
  let invalidate := sceneChanged ∨ renderSettingsChanged ∨ visibilityChanged ∨ aovChanged
  (decide invalidate,
   { lastSceneStateVersion := f.sceneStateVersion
     lastSprimIndexVersion := f.sprimIndexVersion
     lastRenderSettingsVersion := f.renderSettingsStateVersion
     lastVisChangeCount := f.visibilityChangeCount
     lastAovId := f.aovId })

end Gatling

/-! ## Claim C4 -/

/-- Claim C4, counterexample: on a frame where only the sprim-index
version counter changed (from 0 to 1), `_Execute` does not call
`giInvalidateFramebuffer`, even though the claim says a change in any of
the four counters read from the scene registry triggers invalidation. -/
theorem executeVersionCheck_sprim_only_change_no_invalidation :
    (Gatling.executeVersionCheck ⟨0, 0, 0, 0, 0⟩ ⟨0, 1, 0, 0, 0⟩).1 = false ∧
    (⟨0, 1, 0, 0, 0⟩ : Gatling.FrameVersions).sprimIndexVersion ≠
      (⟨0, 0, 0, 0, 0⟩ : Gatling.RenderPassVersionState).lastSprimIndexVersion := by
  decide

/-- Claim C4, amended: on every frame, the progressive-accumulation
framebuffer is invalidated exactly when the scene-state version, the
render-settings version, the visibility change count, or the AOV id
differs from its value on the previous frame; the sprim-index version is
read and stored but does not participate in the invalidation decision.
All five values are saved as the new previous-frame state. -/
theorem executeVersionCheck_invalidation_condition
    (st : Gatling.RenderPassVersionState) (f : Gatling.FrameVersions) :
    ((Gatling.executeVersionCheck st f).1 = true ↔
      f.sceneStateVersion ≠ st.lastSceneStateVersion ∨
      f.renderSettingsStateVersion ≠ st.lastRenderSettingsVersion ∨
      st.lastVisChangeCount ≠ f.visibilityChangeCount ∨
      f.aovId ≠ st.lastAovId) ∧
    (Gatling.executeVersionCheck st f).2 =
      ⟨f.sceneStateVersion, f.sprimIndexVersion, f.renderSettingsStateVersion,
       f.visibilityChangeCount, f.aovId⟩ := by
  constructor
  · simp [Gatling.executeVersionCheck]
  · rfl

namespace Gatling

/-! ## C7 component: traversal kernel
Source: `src/unnamed/part_005` (GLSL).  Scalars are exact rationals; the
32-bit `uint` bit manipulation is over `ℕ` (all masks stay below `2^32`
at the modelled call sites, so two's-complement wrap-around never
fires). -/

/-- GLSL `vec3`, over exact rationals. -/
structure Vec3 where
  x : ℚ
  y : ℚ
  z : ℚ
deriving DecidableEq, Repr

/-- Componentwise subtraction, GLSL `a - b`. -/
def Vec3.sub (a b : Vec3) : Vec3 := ⟨a.x - b.x, a.y - b.y, a.z - b.z⟩

/-- GLSL `cross(a, b)`. -/
def Vec3.cross (a b : Vec3) : Vec3 :=
  ⟨a.y * b.z - a.z * b.y, a.z * b.x - a.x * b.z, a.x * b.y - a.y * b.x⟩

/-- GLSL `dot(a, b)`. -/
def Vec3.dot (a b : Vec3) : ℚ := a.x * b.x + a.y * b.y + a.z * b.z

/-- GLSL `RayInfo`: origin, direction, current maximum hit distance. -/
structure RayInfo where
  origin : Vec3
  dir : Vec3
  tmax : ℚ
deriving DecidableEq, Repr

/-- Embedding of `test_face` (part_005 lines 1-40), the Möller-Trumbore
triangle intersection.  The `out` parameters `t` and `bc` are returned
as `some (t, bc.x, bc.y)` when the function returns `true`; `TRI_EPS` is
a compile-time constant not present under `src/`, so it is a parameter. -/
def test_face (triEps : ℚ) (ray : RayInfo) (p0 p1 p2 : Vec3) :
    Option (ℚ × ℚ × ℚ) :=
  let e1 := Vec3.sub p1 p0
  let e2 := Vec3.sub p2 p0
  let p := Vec3.cross ray.dir e2
  let det := Vec3.dot e1 p
  if |det| < triEps then none
  else
    let inv_det := 1 / det
    let tvec := Vec3.sub ray.origin p0
    let bcx := Vec3.dot tvec p * inv_det
    if bcx < 0 ∨ bcx > 1 then none
    else
      let q := Vec3.cross tvec e1
      let bcy := Vec3.dot ray.dir q * inv_det
      if bcy < 0 ∨ bcx + bcy > 1 then none
      else
        let t := Vec3.dot e2 q * inv_det
        if t ≤ 0 ∨ t ≥ ray.tmax then none
        else some (t, bcx, bcy)

/-- The determinant `dot(e1, cross(dir, e2))` computed by `test_face`. -/
def faceDet (dir p0 p1 p2 : Vec3) : ℚ :=
  Vec3.dot (Vec3.sub p1 p0) (Vec3.cross dir (Vec3.sub p2 p0))

/-- The distance `t = dot(e2, q) * inv_det` computed by `test_face`;
independent of `ray.tmax`. -/
def faceTval (origin dir p0 p1 p2 : Vec3) : ℚ :=
  Vec3.dot (Vec3.sub p2 p0)
      (Vec3.cross (Vec3.sub origin p0) (Vec3.sub p1 p0)) *
    (1 / faceDet dir p0 p1 p2)

/-- First barycentric coordinate computed by `test_face`. -/
def faceBcx (origin dir p0 p1 p2 : Vec3) : ℚ :=
  Vec3.dot (Vec3.sub origin p0) (Vec3.cross dir (Vec3.sub p2 p0)) *
    (1 / faceDet dir p0 p1 p2)

/-- Second barycentric coordinate computed by `test_face`. -/
def faceBcy (origin dir p0 p1 p2 : Vec3) : ℚ :=
  Vec3.dot dir (Vec3.cross (Vec3.sub origin p0) (Vec3.sub p1 p0)) *
    (1 / faceDet dir p0 p1 p2)

/-- The `tmax`-independent part of the `test_face` acceptance condition:
determinant not culled and barycentrics inside the triangle. -/
def faceGeoOk (triEps : ℚ) (origin dir p0 p1 p2 : Vec3) : Prop :=
  triEps ≤ |faceDet dir p0 p1 p2| ∧
  0 ≤ faceBcx origin dir p0 p1 p2 ∧ faceBcx origin dir p0 p1 p2 ≤ 1 ∧
  0 ≤ faceBcy origin dir p0 p1 p2 ∧
  faceBcx origin dir p0 p1 p2 + faceBcy origin dir p0 p1 p2 ≤ 1

instance (triEps : ℚ) (origin dir p0 p1 p2 : Vec3) :
    Decidable (faceGeoOk triEps origin dir p0 p1 p2) := by
  unfold faceGeoOk; infer_instance

/-- GLSL `face` (part_006): three vertex indices and a material index. -/
structure Face where
  v_0 : ℕ
  v_1 : ℕ
  v_2 : ℕ
  mat_index : ℕ
deriving DecidableEq, Repr

/-- GLSL `Hit_info`, restricted to the fields the traversal writes on the
default AOV path: `face_idx` (sentinel `0xFFFFFFFF` = no hit) and the
barycentrics `bc`. -/
structure Hit_info where
  face_idx : ℕ
  bc : ℚ × ℚ
deriving DecidableEq, Repr

/-- The face and vertex storage buffers bound to the kernel. -/
structure SceneData where
  faces : List Face
  vertices : List Vec3
deriving DecidableEq, Repr

/-- `vertices[faces[i].v_0].field1.xyz` (out-of-range reads, undefined in
GLSL, default to zero). -/
def faceVert0 (sc : SceneData) (i : ℕ) : Vec3 :=
  sc.vertices.getD (sc.faces.getD i ⟨0, 0, 0, 0⟩).v_0 ⟨0, 0, 0⟩

/-- `vertices[faces[i].v_1].field1.xyz`. -/
def faceVert1 (sc : SceneData) (i : ℕ) : Vec3 :=
  sc.vertices.getD (sc.faces.getD i ⟨0, 0, 0, 0⟩).v_1 ⟨0, 0, 0⟩

/-- `vertices[faces[i].v_2].field1.xyz`. -/
def faceVert2 (sc : SceneData) (i : ℕ) : Vec3 :=
  sc.vertices.getD (sc.faces.getD i ⟨0, 0, 0, 0⟩).v_2 ⟨0, 0, 0⟩

/-- GLSL `bitCount` on an unsigned word. -/
def bitCount (n : ℕ) : ℕ :=
  if n = 0 then 0 else n % 2 + bitCount (n / 2)
decreasing_by exact Nat.div_lt_self (Nat.pos_of_ne_zero (by assumption)) one_lt_two

/-- The MSB-first sequence of set-bit positions of a word: the order in
which the `while (face_group.y != 0)` loops pop faces.  `findMSB` is
`Nat.log2` (the loops run only while the word is nonzero), and clearing
the most-significant set bit with `y &= ~(1u << idx)` equals
`y % 2 ^ idx`. -/
def maskSequence (mask : ℕ) : List ℕ :=
  if h : mask = 0 then []
  else Nat.log2 mask :: maskSequence (mask % 2 ^ Nat.log2 mask)
termination_by mask
decreasing_by exact Nat.lt_of_lt_of_le (Nat.mod_lt _ (Nat.pos_pow_of_pos _ two_pos)) (Nat.log2_self_le h)

/-- Reassemble a word from its set-bit positions (left inverse of
`maskSequence`); expresses the `face_group.y` word that the postponement
branch pushes back onto the stack. -/
def ofBits (l : List ℕ) : ℕ := (l.map (2 ^ ·)).sum

/-- The body of one `find_hit_closest` face-loop iteration (part_005
lines 198-218): fetch the face at `fidx`, run `test_face` against the
current `ray.tmax`, and on a hit shrink `ray.tmax` to `t` and record
`face_idx` and `bc`.  The mutable pair `(ray.tmax, hit)` is the state
`st`. -/
def closestStep (triEps : ℚ) (sc : SceneData) (origin dir : Vec3)
    (fidx : ℕ) (st : ℚ × Hit_info) : ℚ × Hit_info :=
  (test_face triEps ⟨origin, dir, st.1⟩ (faceVert0 sc fidx)
      (faceVert1 sc fidx) (faceVert2 sc fidx)).elim st
    (fun r => (r.1, ⟨fidx, r.2⟩))

/-- The face-group loop of `find_hit_closest` (part_005 lines 182-223)
with `TRIANGLE_POSTPONING` **not** defined, iterating `closestStep` over
the MSB-first face sequence of the group's bit mask. -/
def closestFaceIter (triEps : ℚ) (sc : SceneData) (origin dir : Vec3)
    (base : ℕ) : List ℕ → ℚ × Hit_info → ℚ × Hit_info
  | [], st => st
  | rel :: rest, st =>
      closestFaceIter triEps sc origin dir base rest
        (closestStep triEps sc origin dir (base + rel) st)

/-- `find_hit_closest`'s face-group loop on the `uvec2 face_group`
representation `(face_group.x, face_group.y) = (base, mask)`. -/
def closestFaceLoop (triEps : ℚ) (sc : SceneData) (origin dir : Vec3)
    (base mask : ℕ) (st : ℚ × Hit_info) : ℚ × Hit_info :=
  closestFaceIter triEps sc origin dir base (maskSequence mask) st

/-- `uint(active_inv_count1 * POSTPONE_RATIO)`: the `uint()` cast of a
non-negative float truncates toward zero, i.e. takes the floor. -/
def postponeThreshold (postponeRatio : ℚ) (count1 : ℕ) : ℕ :=
  ⌊(count1 : ℚ) * postponeRatio⌋₊

/-- The face-group loop of `find_hit_closest` (part_005 lines 178-223)
with the `TRIANGLE_POSTPONING` preprocessor state as the parameter
`postponing`: when compiled in, each iteration samples the active-lane
count (`ballots iter`, an oracle for the result of the `iter`-th
wavefront-ballot) and, if it fell below `threshold`, pushes the
remaining face group onto the stack behind
`ASSERT(stack_size < MAX_STACK_SIZE)` (a fatal error on overflow) and
breaks out of the face loop. -/
def closestFaceIterPost (postponing : Bool) (maxStackSize threshold : ℕ)
    (ballots : ℕ → ℕ) (triEps : ℚ) (sc : SceneData) (origin dir : Vec3)
    (base : ℕ) : List ℕ → ℕ → ℚ × Hit_info → List (ℕ × ℕ) →
      Except String ((ℚ × Hit_info) × List (ℕ × ℕ))
  | [], _, st, stack => .ok (st, stack)
  | rel :: rest, iter, st, stack =>
      if postponing = true ∧ ballots iter < threshold then
        if stack.length < maxStackSize then
          .ok (st, stack ++ [(base, ofBits (rel :: rest))])
        else .error "Error: traversal stack size exceeds maximum capacity\n"
      else
        closestFaceIterPost postponing maxStackSize threshold ballots triEps
          sc origin dir base rest (iter + 1)
          (closestStep triEps sc origin dir (base + rel) st) stack

/-- The face-group loop of `find_hit_any` (part_005 lines 352-384).
Unlike `find_hit_closest`, the ballot sampling and the postponement
branch are **not** wrapped in `#ifdef TRIANGLE_POSTPONING`, and the
stack push carries no `ASSERT`: the group is appended unconditionally
(the write lands at index `stack.length` of the fixed-size array).
`ray.tmax` is never shrunk; on the first successful `test_face` the
function returns `true`. -/
def anyFaceIter (threshold : ℕ) (ballots : ℕ → ℕ) (triEps : ℚ)
    (sc : SceneData) (origin dir : Vec3) (tmax : ℚ) (base : ℕ) :
    List ℕ → ℕ → List (ℕ × ℕ) → Bool × List (ℕ × ℕ)
  | [], _, stack => (false, stack)
  | rel :: rest, iter, stack =>
      if ballots iter < threshold then
        (false, stack ++ [(base, ofBits (rel :: rest))])
      else if (test_face triEps ⟨origin, dir, tmax⟩
          (faceVert0 sc (base + rel)) (faceVert1 sc (base + rel))
          (faceVert2 sc (base + rel))).isSome then (true, stack)
      else anyFaceIter threshold ballots triEps sc origin dir tmax base rest
        (iter + 1) stack

/-- `find_hit_any`'s face-group loop on the `uvec2` representation. -/
def anyFaceLoop (threshold : ℕ) (ballots : ℕ → ℕ) (triEps : ℚ)
    (sc : SceneData) (origin dir : Vec3) (tmax : ℚ) (base mask iter : ℕ)
    (stack : List (ℕ × ℕ)) : Bool × List (ℕ × ℕ) :=
  anyFaceIter threshold ballots triEps sc origin dir tmax base
    (maskSequence mask) iter stack

/-- For the refinement comparison of claim C3: the `find_hit_any` face
loop as the spec describes it with postponement disabled — no ballot
sampling, no postponement push — written from the spec's words ("the
postponement branch is compile-time selectable"). -/
def anyFaceIterSpecNoPostpone (triEps : ℚ) (sc : SceneData)
    (origin dir : Vec3) (tmax : ℚ) (base : ℕ) :
    List ℕ → List (ℕ × ℕ) → Bool × List (ℕ × ℕ)
  | [], stack => (false, stack)
  | rel :: rest, stack =>
      if (test_face triEps ⟨origin, dir, tmax⟩
          (faceVert0 sc (base + rel)) (faceVert1 sc (base + rel))
          (faceVert2 sc (base + rel))).isSome then (true, stack)
      else anyFaceIterSpecNoPostpone triEps sc origin dir tmax base rest stack

/-- Embedding of the node-group pop of `find_hit_closest` (part_005
lines 94-106): pop the highest child bit (`findMSB` = `Nat.log2`; the
branch runs only when `node_group.y > 0x00FFFFFF`, so the word is
nonzero), compute the child node index from the slot ordering
(`~(0xFFFFFFFFu << s)` is the mask of the `s` low bits, `2 ^ s - 1`),
and, if the group still holds node bits, push it behind
`ASSERT(stack_size < MAX_STACK_SIZE)` (fatal error on overflow). -/
def closestNodePop (maxStackSize : ℕ) (octInv4 : ℕ) (ng : ℕ × ℕ)
    (stack : List (ℕ × ℕ)) : Except String (ℕ × (ℕ × ℕ) × List (ℕ × ℕ)) :=
  let child_bit_idx := Nat.log2 ng.2
  let slot_index := (child_bit_idx - 24) ^^^ (octInv4 &&& 0xFF)
  let rel_idx := bitCount (ng.2 &&& (2 ^ slot_index - 1))
  let child_node_idx := ng.1 + rel_idx
  let ng' := (ng.1, ng.2 % 2 ^ child_bit_idx)
  if 0x00FFFFFF < ng'.2 then
    if stack.length < maxStackSize then .ok (child_node_idx, ng', stack ++ [ng'])
    else .error "Error: traversal stack size exceeds maximum capacity\n"
  else .ok (child_node_idx, ng', stack)

/-- Embedding of the node-group pop of `find_hit_any` (part_005 lines
269-280): identical bit manipulation, but the push is **unguarded** —
there is no `ASSERT`, no bound on `stack_size`, and the write lands at
index `stack.length` of the fixed-size array regardless of
`MAX_STACK_SIZE`. -/
def anyNodePop (octInv4 : ℕ) (ng : ℕ × ℕ) (stack : List (ℕ × ℕ)) :
    ℕ × (ℕ × ℕ) × List (ℕ × ℕ) :=
  let child_bit_idx := Nat.log2 ng.2
  let slot_index := (child_bit_idx - 24) ^^^ (octInv4 &&& 0xFF)
  let rel_idx := bitCount (ng.2 &&& (2 ^ slot_index - 1))
  let child_node_idx := ng.1 + rel_idx
  let ng' := (ng.1, ng.2 % 2 ^ child_bit_idx)
  if 0x00FFFFFF < ng'.2 then (child_node_idx, ng', stack ++ [ng'])
  else (child_node_idx, ng', stack)

/-- The strictly-decreasing measure of the MSB-pop loops. -/
theorem mod_log2_lt {mask : ℕ} (h : mask ≠ 0) :
    mask % 2 ^ Nat.log2 mask < mask :=
  Nat.lt_of_lt_of_le (Nat.mod_lt _ (Nat.pos_pow_of_pos _ two_pos))
    (Nat.log2_self_le h)

/-- `test_face` succeeds exactly when the determinant is not culled, the
barycentrics lie in the triangle, and the distance lies strictly inside
`(0, ray.tmax)`; the returned values are the closed-form `faceTval`,
`faceBcx`, `faceBcy`. -/
theorem test_face_eq_some_iff (triEps : ℚ) (ray : RayInfo) (p0 p1 p2 : Vec3)
    (t bx b2 : ℚ) :
    test_face triEps ray p0 p1 p2 = some (t, bx, b2) ↔
      faceGeoOk triEps ray.origin ray.dir p0 p1 p2 ∧
      t = faceTval ray.origin ray.dir p0 p1 p2 ∧
      bx = faceBcx ray.origin ray.dir p0 p1 p2 ∧
      b2 = faceBcy ray.origin ray.dir p0 p1 p2 ∧
      0 < t ∧ t < ray.tmax := by
  simp only [test_face, faceGeoOk, faceTval, faceBcx, faceBcy, faceDet]
  split_ifs with h1 h2 h3 h4
  · simp only [false_iff, not_and, not_lt]
    intro hgeo
    exact absurd hgeo.1 (not_le.mpr h1)
  · simp only [false_iff, not_and, not_lt]
    intro hgeo
    rcases h2 with h2 | h2
    · exact absurd hgeo.2.1 (not_le.mpr h2)
    · exact absurd hgeo.2.2.1 (not_le.mpr h2)
  · simp only [false_iff, not_and, not_lt]
    intro hgeo
    rcases h3 with h3 | h3
    · exact absurd hgeo.2.2.2.1 (not_le.mpr h3)
    · exact absurd hgeo.2.2.2.2 (not_le.mpr h3)
  · simp only [false_iff]
    rintro ⟨hgeo, ht, _, _, hpos, hlt⟩
    rcases h4 with h4 | h4
    · exact absurd (ht ▸ hpos) (not_lt.mpr h4)
    · exact absurd (ht ▸ hlt) (not_lt.mpr h4)
  · push_neg at h1 h2 h3 h4
    simp only [Option.some.injEq, Prod.mk.injEq]
    constructor
    · rintro ⟨ht, hbx, hb2⟩
      exact ⟨⟨h1, h2.1, h2.2, h3.1, h3.2⟩, ht.symm, hbx.symm, hb2.symm,
        lt_of_not_le (fun hc => absurd (ht ▸ hc) (not_le.mpr h4.1)), ht ▸ h4.2⟩
    · rintro ⟨_, ht, hbx, hb2, _, _⟩
      exact ⟨ht.symm, hbx.symm, hb2.symm⟩

/-- When `test_face` hits, `closestStep` overwrites the state with the
hit: `ray.tmax := t`, `hit.face_idx := fidx`, `hit.bc := bc`. -/
theorem closestStep_of_some (triEps : ℚ) (sc : SceneData)
    (origin dir : Vec3) (fidx : ℕ) (st : ℚ × Hit_info) (t bx b2 : ℚ)
    (hEq : test_face triEps ⟨origin, dir, st.1⟩ (faceVert0 sc fidx)
      (faceVert1 sc fidx) (faceVert2 sc fidx) = some (t, bx, b2)) :
    closestStep triEps sc origin dir fidx st = (t, ⟨fidx, (bx, b2)⟩) := by
  rw [closestStep, hEq]
  rfl

/-- When `test_face` misses, `closestStep` leaves the state unchanged. -/
theorem closestStep_of_none (triEps : ℚ) (sc : SceneData)
    (origin dir : Vec3) (fidx : ℕ) (st : ℚ × Hit_info)
    (hEq : test_face triEps ⟨origin, dir, st.1⟩ (faceVert0 sc fidx)
      (faceVert1 sc fidx) (faceVert2 sc fidx) = none) :
    closestStep triEps sc origin dir fidx st = st := by
  rw [closestStep, hEq]
  rfl

/-- One face test never grows `ray.tmax`. -/
theorem closestStep_fst_le (triEps : ℚ) (sc : SceneData)
    (origin dir : Vec3) (fidx : ℕ) (st : ℚ × Hit_info) :
    (closestStep triEps sc origin dir fidx st).1 ≤ st.1 := by
  rcases hEq : test_face triEps ⟨origin, dir, st.1⟩ (faceVert0 sc fidx)
      (faceVert1 sc fidx) (faceVert2 sc fidx) with _ | ⟨⟨t, bx, b2⟩⟩
  · rw [closestStep_of_none triEps sc origin dir fidx st hEq]
  · rw [closestStep_of_some triEps sc origin dir fidx st t bx b2 hEq]
    exact le_of_lt
      (((test_face_eq_some_iff triEps ⟨origin, dir, st.1⟩ _ _ _ t bx b2).mp
        hEq).2.2.2.2.2)

/-- The closest-hit face loop never grows `ray.tmax`. -/
theorem closestFaceIter_fst_le (triEps : ℚ) (sc : SceneData)
    (origin dir : Vec3) (base : ℕ) :
    ∀ (l : List ℕ) (st : ℚ × Hit_info),
      (closestFaceIter triEps sc origin dir base l st).1 ≤ st.1 := by
  intro l
  induction l with
  | nil => intro st; exact le_refl st.1
  | cons rel rest ih =>
    intro st
    rw [closestFaceIter]
    exact le_trans (ih _) (closestStep_fst_le triEps sc origin dir (base + rel) st)

/-- If the face loop records any hit (the hit record changed), then
`ray.tmax` strictly decreased. -/
theorem closestFaceIter_changed_lt (triEps : ℚ) (sc : SceneData)
    (origin dir : Vec3) (base : ℕ) :
    ∀ (l : List ℕ) (st : ℚ × Hit_info),
      (closestFaceIter triEps sc origin dir base l st).2 ≠ st.2 →
      (closestFaceIter triEps sc origin dir base l st).1 < st.1 := by
  intro l
  induction l with
  | nil => intro st hne; exact absurd rfl hne
  | cons rel rest ih =>
    intro st hne
    rw [closestFaceIter] at hne ⊢
    rcases hEq : test_face triEps ⟨origin, dir, st.1⟩
        (faceVert0 sc (base + rel)) (faceVert1 sc (base + rel))
        (faceVert2 sc (base + rel)) with _ | ⟨⟨t, bx, b2⟩⟩
    · rw [closestStep_of_none triEps sc origin dir (base + rel) st hEq] at hne ⊢
      exact ih st hne
    · rw [closestStep_of_some triEps sc origin dir (base + rel) st t bx b2 hEq]
      refine lt_of_le_of_lt (closestFaceIter_fst_le triEps sc origin dir base rest _) ?_
      exact ((test_face_eq_some_iff triEps ⟨origin, dir, st.1⟩ _ _ _ t bx b2).mp
        hEq).2.2.2.2.2
/-- The most significant bit of a nonzero word is set. -/
theorem testBit_log2_self {mask : ℕ} (h : mask ≠ 0) :
    mask.testBit (Nat.log2 mask) = true := by
  have h1 : 2 ^ Nat.log2 mask ≤ mask := Nat.log2_self_le h
  have h2 : mask < 2 ^ (Nat.log2 mask + 1) :=
    (Nat.log2_lt h).mp (Nat.lt_succ_self _)
  have hdiv : mask / 2 ^ Nat.log2 mask = 1 := by
    refine Nat.div_eq_of_lt_le (by simpa using h1) ?_
    calc mask < 2 ^ (Nat.log2 mask + 1) := h2
      _ = (1 + 1) * 2 ^ Nat.log2 mask := by ring
  rw [Nat.testBit_to_div_mod, hdiv]
  rfl

/-- The MSB-first pop sequence visits exactly the set bits of the word. -/
theorem mem_maskSequence :
    ∀ (mask rel : ℕ), rel ∈ maskSequence mask ↔ mask.testBit rel = true := by
  intro mask
  induction mask using Nat.strong_induction_on with
  | _ mask ih =>
    intro rel
    rw [maskSequence]
    split_ifs with hm
    · subst hm
      simp [Nat.zero_testBit]
    · rw [List.mem_cons, ih _ (mod_log2_lt hm) rel, Nat.testBit_mod_two_pow]
      constructor
      · rintro (hrel | hrel)
        · exact hrel ▸ testBit_log2_self hm
        · exact (Bool.and_eq_true _ _).mp hrel |>.2
      · intro hbit
        have hle : rel ≤ Nat.log2 mask := by
          refine (Nat.le_log2 hm).mpr ?_
          by_contra hlt
          exact absurd hbit (by simp [Nat.testBit_lt_two_pow (lt_of_not_le hlt)])
        rcases eq_or_lt_of_le hle with heq | hlt
        · exact Or.inl heq
        · exact Or.inr (by simp [hbit, hlt])

/-- Reassembling the pop sequence of a word gives the word back: the
face group pushed by postponement is exactly the remaining mask. -/
theorem ofBits_maskSequence :
    ∀ (mask : ℕ), ofBits (maskSequence mask) = mask := by
  intro mask
  induction mask using Nat.strong_induction_on with
  | _ mask ih =>
    rw [maskSequence]
    split_ifs with hm
    · simp [ofBits, hm]
    · have h1 : 2 ^ Nat.log2 mask ≤ mask := Nat.log2_self_le hm
      have h2 : mask < 2 ^ (Nat.log2 mask + 1) :=
        (Nat.log2_lt hm).mp (Nat.lt_succ_self _)
      have hdiv : mask / 2 ^ Nat.log2 mask = 1 := by
        refine Nat.div_eq_of_lt_le (by simpa using h1) ?_
        calc mask < 2 ^ (Nat.log2 mask + 1) := h2
          _ = (1 + 1) * 2 ^ Nat.log2 mask := by ring
      have hsplit := Nat.div_add_mod mask (2 ^ Nat.log2 mask)
      rw [hdiv, mul_one] at hsplit
      calc ofBits (Nat.log2 mask :: maskSequence (mask % 2 ^ Nat.log2 mask))
          = 2 ^ Nat.log2 mask + ofBits (maskSequence (mask % 2 ^ Nat.log2 mask)) := by
            simp [ofBits]
        _ = 2 ^ Nat.log2 mask + mask % 2 ^ Nat.log2 mask := by
            rw [ih _ (mod_log2_lt hm)]
        _ = mask := hsplit

/-- The surviving `ray.tmax` is no larger than the distance of any face
of the loop's sequence that passes the geometric part of the test with a
positive distance: the surviving hit is the nearest tested one. -/
theorem closestFaceIter_nearest (triEps : ℚ) (sc : SceneData)
    (origin dir : Vec3) (base : ℕ) :
    ∀ (l : List ℕ) (st : ℚ × Hit_info) (rel : ℕ), rel ∈ l →
      faceGeoOk triEps origin dir (faceVert0 sc (base + rel))
        (faceVert1 sc (base + rel)) (faceVert2 sc (base + rel)) →
      0 < faceTval origin dir (faceVert0 sc (base + rel))
        (faceVert1 sc (base + rel)) (faceVert2 sc (base + rel)) →
      (closestFaceIter triEps sc origin dir base l st).1 ≤
        faceTval origin dir (faceVert0 sc (base + rel))
          (faceVert1 sc (base + rel)) (faceVert2 sc (base + rel)) := by
  intro l
  induction l with
  | nil => intro st rel hmem; exact absurd hmem (List.not_mem_nil rel)
  | cons rel' rest ih =>
    intro st rel hmem hgeo hpos
    rw [closestFaceIter]
    rcases List.mem_cons.mp hmem with heq | hmem'
    · subst heq
      rcases hEq : test_face triEps ⟨origin, dir, st.1⟩
          (faceVert0 sc (base + rel)) (faceVert1 sc (base + rel))
          (faceVert2 sc (base + rel)) with _ | ⟨⟨t, bx, b2⟩⟩
      · have hge : st.1 ≤ faceTval origin dir (faceVert0 sc (base + rel))
            (faceVert1 sc (base + rel)) (faceVert2 sc (base + rel)) := by
          by_contra hlt
          push_neg at hlt
          exact absurd
            ((test_face_eq_some_iff triEps ⟨origin, dir, st.1⟩ _ _ _ _ _ _).mpr
              ⟨hgeo, rfl, rfl, rfl, hpos, hlt⟩)
            (by simp [hEq])
        rw [closestStep_of_none triEps sc origin dir (base + rel) st hEq]
        exact le_trans (closestFaceIter_fst_le triEps sc origin dir base rest st) hge
      · have hchar := (test_face_eq_some_iff triEps ⟨origin, dir, st.1⟩
          _ _ _ t bx b2).mp hEq
        rw [closestStep_of_some triEps sc origin dir (base + rel) st t bx b2 hEq]
        refine le_trans (closestFaceIter_fst_le triEps sc origin dir base rest _) ?_
        exact le_of_eq hchar.2.1
    · exact ih _ rel hmem' hgeo hpos


/-- In the `find_hit_any` face loop, a sampled active-lane count below
the threshold pushes the remaining face group and breaks — with no
compile-time guard and no stack-bound check. -/
theorem anyFaceIter_postpones (threshold : ℕ) (ballots : ℕ → ℕ)
    (triEps : ℚ) (sc : SceneData) (origin dir : Vec3) (tmax : ℚ)
    (base rel : ℕ) (rest : List ℕ) (iter : ℕ) (stack : List (ℕ × ℕ))
    (hb : ballots iter < threshold) :
    anyFaceIter threshold ballots triEps sc origin dir tmax base
      (rel :: rest) iter stack =
      (false, stack ++ [(base, ofBits (rel :: rest))]) := by
  rw [anyFaceIter, if_pos hb]

/-- `find_hit_any` returns `true` at the first face whose test succeeds
(when the ballot does not trigger postponement at that iteration). -/
theorem anyFaceIter_first_hit (threshold : ℕ) (ballots : ℕ → ℕ)
    (triEps : ℚ) (sc : SceneData) (origin dir : Vec3) (tmax : ℚ)
    (base rel : ℕ) (rest : List ℕ) (iter : ℕ) (stack : List (ℕ × ℕ))
    (hb : ¬ ballots iter < threshold)
    (hs : (test_face triEps ⟨origin, dir, tmax⟩
      (faceVert0 sc (base + rel)) (faceVert1 sc (base + rel))
      (faceVert2 sc (base + rel))).isSome = true) :
    anyFaceIter threshold ballots triEps sc origin dir tmax base
      (rel :: rest) iter stack = (true, stack) := by
  rw [anyFaceIter, if_neg hb, if_pos hs]

/-- If the `find_hit_any` face loop returns `true`, some face of its
sequence passes `test_face`. -/
theorem anyFaceIter_true_exists (threshold : ℕ) (ballots : ℕ → ℕ)
    (triEps : ℚ) (sc : SceneData) (origin dir : Vec3) (tmax : ℚ)
    (base : ℕ) :
    ∀ (l : List ℕ) (iter : ℕ) (stack : List (ℕ × ℕ)),
      (anyFaceIter threshold ballots triEps sc origin dir tmax base l iter
        stack).1 = true →
      ∃ rel ∈ l, (test_face triEps ⟨origin, dir, tmax⟩
        (faceVert0 sc (base + rel)) (faceVert1 sc (base + rel))
        (faceVert2 sc (base + rel))).isSome = true := by
  intro l
  induction l with
  | nil => intro iter stack h; exact absurd h (by simp [anyFaceIter])
  | cons rel rest ih =>
    intro iter stack h
    rw [anyFaceIter] at h
    split_ifs at h with hb hs
    · exact ⟨rel, List.mem_cons_self rel rest, hs⟩
    · obtain ⟨rel', hmem, hs'⟩ := ih (iter + 1) stack h
      exact ⟨rel', List.mem_cons_of_mem rel hmem, hs'⟩

/-- With `TRIANGLE_POSTPONING` not defined, the postponed variant of the
`find_hit_closest` face loop never consults the ballot oracle, never
touches the stack, never faults, and computes exactly the plain loop. -/
theorem closestFaceIterPost_false_eq (maxStackSize threshold : ℕ)
    (ballots : ℕ → ℕ) (triEps : ℚ) (sc : SceneData) (origin dir : Vec3)
    (base : ℕ) :
    ∀ (l : List ℕ) (iter : ℕ) (st : ℚ × Hit_info) (stack : List (ℕ × ℕ)),
      closestFaceIterPost false maxStackSize threshold ballots triEps sc
        origin dir base l iter st stack =
      .ok (closestFaceIter triEps sc origin dir base l st, stack) := by
  intro l
  induction l with
  | nil => intro iter st stack; rfl
  | cons rel rest ih =>
    intro iter st stack
    rw [closestFaceIterPost, if_neg (by simp), closestFaceIter]
    exact ih (iter + 1) _ stack

/-- A successful postponed closest-hit face loop either left the stack
alone or pushed one postponed face group, and the push only happened
with room: the write index `stack.length` was below `MAX_STACK_SIZE`. -/
theorem closestFaceIterPost_ok_stack (postponing : Bool)
    (maxStackSize threshold : ℕ) (ballots : ℕ → ℕ) (triEps : ℚ)
    (sc : SceneData) (origin dir : Vec3) (base : ℕ) :
    ∀ (l : List ℕ) (iter : ℕ) (st : ℚ × Hit_info) (stack : List (ℕ × ℕ))
      (out : (ℚ × Hit_info) × List (ℕ × ℕ)),
      closestFaceIterPost postponing maxStackSize threshold ballots triEps
        sc origin dir base l iter st stack = .ok out →
      out.2 = stack ∨
        (stack.length < maxStackSize ∧
          ∃ m, out.2 = stack ++ [(base, m)]) := by
  intro l
  induction l with
  | nil =>
    intro iter st stack out h
    rw [closestFaceIterPost] at h
    simp only [Except.ok.injEq] at h
    exact Or.inl (by rw [← h]) 
  | cons rel rest ih =>
    intro iter st stack out h
    rw [closestFaceIterPost] at h
    split_ifs at h with hpost hroom
    · simp only [Except.ok.injEq] at h
      exact Or.inr ⟨hroom, ofBits (rel :: rest), by rw [← h]⟩
    · exact ih (iter + 1) _ stack out h

/-- The postponed closest-hit face loop faults only when the postponement
push found the stack already at capacity. -/
theorem closestFaceIterPost_error_full (postponing : Bool)
    (maxStackSize threshold : ℕ) (ballots : ℕ → ℕ) (triEps : ℚ)
    (sc : SceneData) (origin dir : Vec3) (base : ℕ) :
    ∀ (l : List ℕ) (iter : ℕ) (st : ℚ × Hit_info) (stack : List (ℕ × ℕ))
      (msg : String),
      closestFaceIterPost postponing maxStackSize threshold ballots triEps
        sc origin dir base l iter st stack = .error msg →
      maxStackSize ≤ stack.length := by
  intro l
  induction l with
  | nil => intro iter st stack msg h; exact absurd h (by rw [closestFaceIterPost]; simp)
  | cons rel rest ih =>
    intro iter st stack msg h
    rw [closestFaceIterPost] at h
    split_ifs at h with hpost hroom
    · exact le_of_not_lt hroom
    · exact ih (iter + 1) _ stack msg h


/-- The geometric acceptance of face `fidx` (determinant and
barycentrics), with the vertices fetched from the scene buffers. -/
def faceGeoOkAt (triEps : ℚ) (sc : SceneData) (origin dir : Vec3)
    (fidx : ℕ) : Prop :=
  faceGeoOk triEps origin dir (faceVert0 sc fidx) (faceVert1 sc fidx)
    (faceVert2 sc fidx)

instance (triEps : ℚ) (sc : SceneData) (origin dir : Vec3) (fidx : ℕ) :
    Decidable (faceGeoOkAt triEps sc origin dir fidx) := by
  unfold faceGeoOkAt; infer_instance

/-- The distance `test_face` computes for face `fidx`, with the vertices
fetched from the scene buffers. -/
def faceTvalAt (sc : SceneData) (origin dir : Vec3) (fidx : ℕ) : ℚ :=
  faceTval origin dir (faceVert0 sc fidx) (faceVert1 sc fidx)
    (faceVert2 sc fidx)

/-- `ray.tmax` after one face test, as a function of the current value
alone (the hit record does not influence it). -/
def faceStepTmax (triEps : ℚ) (sc : SceneData) (origin dir : Vec3)
    (fidx : ℕ) (cur : ℚ) : ℚ :=
  (test_face triEps ⟨origin, dir, cur⟩ (faceVert0 sc fidx)
      (faceVert1 sc fidx) (faceVert2 sc fidx)).elim cur (fun r => r.1)

theorem closestStep_fst_eq (triEps : ℚ) (sc : SceneData)
    (origin dir : Vec3) (fidx : ℕ) (st : ℚ × Hit_info) :
    (closestStep triEps sc origin dir fidx st).1 =
      faceStepTmax triEps sc origin dir fidx st.1 := by
  rw [closestStep, faceStepTmax]
  rcases test_face triEps ⟨origin, dir, st.1⟩ (faceVert0 sc fidx)
      (faceVert1 sc fidx) (faceVert2 sc fidx) with _ | r <;> rfl

/-- The `ray.tmax` component of the closest-hit face loop is a left fold
of the per-face update over the face sequence. -/
theorem closestFaceIter_fst_foldl (triEps : ℚ) (sc : SceneData)
    (origin dir : Vec3) (base : ℕ) :
    ∀ (l : List ℕ) (st : ℚ × Hit_info),
      (closestFaceIter triEps sc origin dir base l st).1 =
        l.foldl (fun cur rel => faceStepTmax triEps sc origin dir
          (base + rel) cur) st.1 := by
  intro l
  induction l with
  | nil => intro st; rfl
  | cons rel rest ih =>
    intro st
    rw [closestFaceIter, List.foldl_cons, ih, closestStep_fst_eq]

/-- The per-face `ray.tmax` update clamps toward the face's distance when
the face passes the geometric test with a positive distance, and is the
identity otherwise. -/
theorem faceStepTmax_eq_min (triEps : ℚ) (sc : SceneData)
    (origin dir : Vec3) (fidx : ℕ) (cur : ℚ) :
    faceStepTmax triEps sc origin dir fidx cur =
      if faceGeoOkAt triEps sc origin dir fidx ∧
          0 < faceTvalAt sc origin dir fidx then
        min cur (faceTvalAt sc origin dir fidx)
      else cur := by
  rcases hEq : test_face triEps ⟨origin, dir, cur⟩ (faceVert0 sc fidx)
      (faceVert1 sc fidx) (faceVert2 sc fidx) with _ | ⟨⟨t, bx, b2⟩⟩
  · have hL : faceStepTmax triEps sc origin dir fidx cur = cur := by
      rw [faceStepTmax, hEq]
      rfl
    rw [hL]
    split_ifs with hq
    · rcases hq with ⟨hgeo, hpos⟩
      have hnlt : ¬ faceTvalAt sc origin dir fidx < cur := fun hlt =>
        absurd ((test_face_eq_some_iff triEps ⟨origin, dir, cur⟩ _ _ _ _ _ _).mpr
          ⟨hgeo, rfl, rfl, rfl, hpos, hlt⟩) (by simp [hEq])
      rw [min_eq_left (le_of_not_lt hnlt)]
    · rfl
  · have hchar := (test_face_eq_some_iff triEps ⟨origin, dir, cur⟩
      _ _ _ t bx b2).mp hEq
    dsimp only at hchar
    have hL : faceStepTmax triEps sc origin dir fidx cur = t := by
      rw [faceStepTmax, hEq]
      rfl
    rw [hL]
    have htv : t = faceTvalAt sc origin dir fidx := by
      rw [faceTvalAt]; exact hchar.2.1
    have hq : faceGeoOkAt triEps sc origin dir fidx ∧
        0 < faceTvalAt sc origin dir fidx := by
      constructor
      · rw [faceGeoOkAt]; exact hchar.1
      · rw [← htv]; exact hchar.2.2.2.2.1
    rw [if_pos hq, ← htv, min_eq_right (le_of_lt hchar.2.2.2.2.2)]

/-- The surviving `ray.tmax` of the closest-hit face loop is invariant
under any permutation of the order in which the faces are tested. -/
theorem closestFaceIter_fst_perm (triEps : ℚ) (sc : SceneData)
    (origin dir : Vec3) (base : ℕ) (l₁ l₂ : List ℕ) (st : ℚ × Hit_info)
    (hperm : l₁.Perm l₂) :
    (closestFaceIter triEps sc origin dir base l₁ st).1 =
      (closestFaceIter triEps sc origin dir base l₂ st).1 := by
  rw [closestFaceIter_fst_foldl, closestFaceIter_fst_foldl]
  refine @List.Perm.foldl_eq _ _
    (fun cur rel => faceStepTmax triEps sc origin dir (base + rel) cur)
    l₁ l₂ ⟨?_⟩ hperm st.1
  intro b a₁ a₂
  rw [faceStepTmax_eq_min, faceStepTmax_eq_min, faceStepTmax_eq_min,
    faceStepTmax_eq_min]
  split_ifs with h1 h2 <;> try rfl
  exact min_right_comm b (faceTvalAt sc origin dir (base + a₁))
    (faceTvalAt sc origin dir (base + a₂))

/-- The guarded stack push of `find_hit_closest`'s node pop: it faults
exactly when the popped group still holds node bits and the stack is at
capacity. -/
theorem closestNodePop_error_iff (maxStackSize octInv4 : ℕ) (ng : ℕ × ℕ)
    (stack : List (ℕ × ℕ)) :
    (∃ msg, closestNodePop maxStackSize octInv4 ng stack = .error msg) ↔
      0x00FFFFFF < ng.2 % 2 ^ Nat.log2 ng.2 ∧
        ¬ stack.length < maxStackSize := by
  simp only [closestNodePop]
  split_ifs with h1 h2 <;> simp_all

/-- A successful `find_hit_closest` node pop either did not push, or
pushed the remaining group with the write index `stack.length` strictly
below `MAX_STACK_SIZE`. -/
theorem closestNodePop_ok_stack (maxStackSize octInv4 : ℕ) (ng : ℕ × ℕ)
    (stack : List (ℕ × ℕ)) (out : ℕ × (ℕ × ℕ) × List (ℕ × ℕ))
    (h : closestNodePop maxStackSize octInv4 ng stack = .ok out) :
    out.2.2 = stack ∨
      (stack.length < maxStackSize ∧ out.2.2 = stack ++ [out.2.1]) := by
  simp only [closestNodePop] at h
  split_ifs at h with h1 h2
  · simp only [Except.ok.injEq] at h
    exact Or.inr ⟨h2, by rw [← h]⟩
  · simp only [Except.ok.injEq] at h
    exact Or.inl (by rw [← h])

/-- When the popped group still holds node bits and the stack is at
capacity, `find_hit_closest`'s node pop raises the fatal `ASSERT`
message. -/
theorem closestNodePop_full_error (maxStackSize octInv4 : ℕ) (ng : ℕ × ℕ)
    (stack : List (ℕ × ℕ)) (h1 : 0x00FFFFFF < ng.2 % 2 ^ Nat.log2 ng.2)
    (h2 : ¬ stack.length < maxStackSize) :
    closestNodePop maxStackSize octInv4 ng stack =
      .error "Error: traversal stack size exceeds maximum capacity\n" := by
  simp only [closestNodePop]
  rw [if_pos h1, if_neg h2]

/-- The `find_hit_any` node pop pushes the remaining group with no bound
check whatsoever: whenever node bits remain, the write lands at index
`stack.length` of the fixed-size array, however large that already is. -/
theorem anyNodePop_push_unguarded (octInv4 : ℕ) (ng : ℕ × ℕ)
    (stack : List (ℕ × ℕ)) (h : 0x00FFFFFF < ng.2 % 2 ^ Nat.log2 ng.2) :
    (anyNodePop octInv4 ng stack).2.2 =
      stack ++ [(ng.1, ng.2 % 2 ^ Nat.log2 ng.2)] := by
  simp only [anyNodePop]
  rw [if_pos h]


/-- `maskSequence` at zero: the loop does not run. -/
theorem maskSequence_zero : maskSequence 0 = [] := by
  rw [maskSequence]
  simp

/-- `maskSequence` at a nonzero word: pop the MSB first. -/
theorem maskSequence_pos {mask : ℕ} (h : mask ≠ 0) :
    maskSequence mask =
      Nat.log2 mask :: maskSequence (mask % 2 ^ Nat.log2 mask) := by
  rw [maskSequence]
  simp [h]

/-- With `TRIANGLE_POSTPONING` compiled in but the active-lane count
never below the threshold, the postponed closest-hit face loop also
computes exactly the plain loop. -/
theorem closestFaceIterPost_true_no_postpone (maxStackSize threshold : ℕ)
    (ballots : ℕ → ℕ) (triEps : ℚ) (sc : SceneData) (origin dir : Vec3)
    (base : ℕ) (hb : ∀ i, ¬ ballots i < threshold) :
    ∀ (l : List ℕ) (iter : ℕ) (st : ℚ × Hit_info) (stack : List (ℕ × ℕ)),
      closestFaceIterPost true maxStackSize threshold ballots triEps sc
        origin dir base l iter st stack =
      .ok (closestFaceIter triEps sc origin dir base l st, stack) := by
  intro l
  induction l with
  | nil => intro iter st stack; rfl
  | cons rel rest ih =>
    intro iter st stack
    rw [closestFaceIterPost, if_neg (by simp [hb iter]), closestFaceIter]
    exact ih (iter + 1) _ stack

/-- When the ballot oracle never dips below the threshold, the
`find_hit_any` face loop coincides with the postponement-free loop
written from the spec. -/
theorem anyFaceIter_no_postpone_eq_spec (threshold : ℕ) (ballots : ℕ → ℕ)
    (triEps : ℚ) (sc : SceneData) (origin dir : Vec3) (tmax : ℚ)
    (base : ℕ) (hb : ∀ i, ¬ ballots i < threshold) :
    ∀ (l : List ℕ) (iter : ℕ) (stack : List (ℕ × ℕ)),
      anyFaceIter threshold ballots triEps sc origin dir tmax base l iter
        stack =
      anyFaceIterSpecNoPostpone triEps sc origin dir tmax base l stack := by
  intro l
  induction l with
  | nil => intro iter stack; rfl
  | cons rel rest ih =>
    intro iter stack
    rw [anyFaceIter, if_neg (hb iter), anyFaceIterSpecNoPostpone]
    split_ifs with hs
    · rfl
    · exact ih (iter + 1) stack

/-- The spec's postponement-free `find_hit_any` loop returns `true` at a
leading face whose test succeeds. -/
theorem anyFaceIterSpecNoPostpone_first_hit (triEps : ℚ) (sc : SceneData)
    (origin dir : Vec3) (tmax : ℚ) (base rel : ℕ) (rest : List ℕ)
    (stack : List (ℕ × ℕ))
    (hs : (test_face triEps ⟨origin, dir, tmax⟩
      (faceVert0 sc (base + rel)) (faceVert1 sc (base + rel))
      (faceVert2 sc (base + rel))).isSome = true) :
    anyFaceIterSpecNoPostpone triEps sc origin dir tmax base (rel :: rest)
      stack = (true, stack) := by
  rw [anyFaceIterSpecNoPostpone, if_pos hs]

end Gatling


/-! ## Claim C1 -/

/-- Claim C1: `test_face` reports a hit only when `|det| ≥ TRI_EPS` and
the computed distance `t` lies strictly inside `(0, ray.tmax)`; in
`find_hit_closest` every reported hit assigns `ray.tmax := t` (which is
strictly below the previous `ray.tmax`, so `ray.tmax` strictly
decreases over recorded hits, and the surviving value is at most the
distance of every tested face that passes the geometric test with a
positive distance — the surviving hit is the nearest tested one); and
`find_hit_any` returns `true` at the first face whose test succeeds,
and only returns `true` when some face of the group passes the test. -/
theorem traversal_face_test_contract :
    (∀ (triEps : ℚ) (ray : Gatling.RayInfo) (p0 p1 p2 : Gatling.Vec3)
      (t bx b2 : ℚ),
      Gatling.test_face triEps ray p0 p1 p2 = some (t, bx, b2) →
      triEps ≤ |Gatling.faceDet ray.dir p0 p1 p2| ∧ 0 < t ∧ t < ray.tmax) ∧
    (∀ (triEps : ℚ) (sc : Gatling.SceneData) (origin dir : Gatling.Vec3)
      (fidx : ℕ) (st : ℚ × Gatling.Hit_info) (t bx b2 : ℚ),
      Gatling.test_face triEps ⟨origin, dir, st.1⟩
        (Gatling.faceVert0 sc fidx) (Gatling.faceVert1 sc fidx)
        (Gatling.faceVert2 sc fidx) = some (t, bx, b2) →
      Gatling.closestStep triEps sc origin dir fidx st =
        (t, ⟨fidx, (bx, b2)⟩) ∧ t < st.1) ∧
    (∀ (triEps : ℚ) (sc : Gatling.SceneData) (origin dir : Gatling.Vec3)
      (base mask : ℕ) (st : ℚ × Gatling.Hit_info),
      (Gatling.closestFaceLoop triEps sc origin dir base mask st).1 ≤ st.1 ∧
      ((Gatling.closestFaceLoop triEps sc origin dir base mask st).2 ≠ st.2 →
        (Gatling.closestFaceLoop triEps sc origin dir base mask st).1 < st.1)) ∧
    (∀ (triEps : ℚ) (sc : Gatling.SceneData) (origin dir : Gatling.Vec3)
      (base mask : ℕ) (st : ℚ × Gatling.Hit_info) (rel : ℕ),
      Nat.testBit mask rel = true →
      Gatling.faceGeoOk triEps origin dir
        (Gatling.faceVert0 sc (base + rel)) (Gatling.faceVert1 sc (base + rel))
        (Gatling.faceVert2 sc (base + rel)) →
      0 < Gatling.faceTval origin dir
        (Gatling.faceVert0 sc (base + rel)) (Gatling.faceVert1 sc (base + rel))
        (Gatling.faceVert2 sc (base + rel)) →
      (Gatling.closestFaceLoop triEps sc origin dir base mask st).1 ≤
        Gatling.faceTval origin dir
          (Gatling.faceVert0 sc (base + rel))
          (Gatling.faceVert1 sc (base + rel))
          (Gatling.faceVert2 sc (base + rel))) ∧
    (∀ (threshold : ℕ) (ballots : ℕ → ℕ) (triEps : ℚ)
      (sc : Gatling.SceneData) (origin dir : Gatling.Vec3) (tmax : ℚ)
      (base rel : ℕ) (rest : List ℕ) (iter : ℕ) (stack : List (ℕ × ℕ)),
      ¬ ballots iter < threshold →
      (Gatling.test_face triEps ⟨origin, dir, tmax⟩
        (Gatling.faceVert0 sc (base + rel)) (Gatling.faceVert1 sc (base + rel))
        (Gatling.faceVert2 sc (base + rel))).isSome = true →
      Gatling.anyFaceIter threshold ballots triEps sc origin dir tmax base
        (rel :: rest) iter stack = (true, stack)) ∧
    (∀ (threshold : ℕ) (ballots : ℕ → ℕ) (triEps : ℚ)
      (sc : Gatling.SceneData) (origin dir : Gatling.Vec3) (tmax : ℚ)
      (base mask iter : ℕ) (stack : List (ℕ × ℕ)),
      (Gatling.anyFaceLoop threshold ballots triEps sc origin dir tmax base
        mask iter stack).1 = true →
      ∃ rel, Nat.testBit mask rel = true ∧
        (Gatling.test_face triEps ⟨origin, dir, tmax⟩
          (Gatling.faceVert0 sc (base + rel))
          (Gatling.faceVert1 sc (base + rel))
          (Gatling.faceVert2 sc (base + rel))).isSome = true) := by
  refine ⟨?_, ?_, ?_, ?_, ?_, ?_⟩
  · intro triEps ray p0 p1 p2 t bx b2 hEq
    have h := (Gatling.test_face_eq_some_iff triEps ray p0 p1 p2 t bx b2).mp hEq
    exact ⟨h.1.1, h.2.2.2.2.1, h.2.2.2.2.2⟩
  · intro triEps sc origin dir fidx st t bx b2 hEq
    refine ⟨Gatling.closestStep_of_some triEps sc origin dir fidx st t bx b2 hEq, ?_⟩
    exact ((Gatling.test_face_eq_some_iff triEps ⟨origin, dir, st.1⟩
      _ _ _ t bx b2).mp hEq).2.2.2.2.2
  · intro triEps sc origin dir base mask st
    rw [Gatling.closestFaceLoop]
    exact ⟨Gatling.closestFaceIter_fst_le triEps sc origin dir base _ st,
      Gatling.closestFaceIter_changed_lt triEps sc origin dir base _ st⟩
  · intro triEps sc origin dir base mask st rel hbit hgeo hpos
    rw [Gatling.closestFaceLoop]
    exact Gatling.closestFaceIter_nearest triEps sc origin dir base _ st rel
      ((Gatling.mem_maskSequence mask rel).mpr hbit) hgeo hpos
  · intro threshold ballots triEps sc origin dir tmax base rel rest iter stack hb hs
    exact Gatling.anyFaceIter_first_hit threshold ballots triEps sc origin dir
      tmax base rel rest iter stack hb hs
  · intro threshold ballots triEps sc origin dir tmax base mask iter stack h
    rw [Gatling.anyFaceLoop] at h
    obtain ⟨rel, hmem, hs⟩ := Gatling.anyFaceIter_true_exists threshold ballots
      triEps sc origin dir tmax base _ iter stack h
    exact ⟨rel, (Gatling.mem_maskSequence mask rel).mp hmem, hs⟩

namespace Gatling

/-- Concrete evaluation of the Möller-Trumbore test on the spec's S1
scenario: triangle `(0,0,0),(1,0,0),(0,1,0)`, ray from `(1/4,1/4,-1)`
along `+z`: hit at `t = 1` with barycentrics `(1/4, 1/4)`. -/
theorem s1_test_face_eval :
    test_face (1/1000000000) ⟨⟨1/4, 1/4, -1⟩, ⟨0, 0, 1⟩, 1000000000⟩
      ⟨0, 0, 0⟩ ⟨1, 0, 0⟩ ⟨0, 1, 0⟩ = some (1, 1/4, 1/4) := by
  norm_num [test_face, Vec3.sub, Vec3.cross, Vec3.dot]

/-- The S1 scene: one face over three vertices. -/
def s1Scene : SceneData :=
  ⟨[⟨0, 1, 2, 0⟩], [⟨0, 0, 0⟩, ⟨1, 0, 0⟩, ⟨0, 1, 0⟩]⟩

theorem s1_faceVert_eval :
    faceVert0 s1Scene 0 = ⟨0, 0, 0⟩ ∧ faceVert1 s1Scene 0 = ⟨1, 0, 0⟩ ∧
      faceVert2 s1Scene 0 = ⟨0, 1, 0⟩ :=
  ⟨rfl, rfl, rfl⟩

end Gatling

/-- Claim C1, witness: the S1 single-triangle scenario exercises the
contract — the determinant bound and `t ∈ (0, tmax)` hold at the
reported hit `t = 1`, and `find_hit_any`'s loop returns `true`
immediately at that face. -/
theorem traversal_face_test_contract_witness :
    ((1:ℚ)/1000000000 ≤
        |Gatling.faceDet ⟨0, 0, 1⟩ ⟨0, 0, 0⟩ ⟨1, 0, 0⟩ ⟨0, 1, 0⟩| ∧
      (0:ℚ) < 1 ∧ (1:ℚ) < 1000000000) ∧
    Gatling.anyFaceIter 2 (fun _ => 5) (1/1000000000) Gatling.s1Scene
      ⟨1/4, 1/4, -1⟩ ⟨0, 0, 1⟩ 1000000000 0 [0] 0 [] = (true, []) := by
  constructor
  · exact traversal_face_test_contract.1 (1/1000000000)
      ⟨⟨1/4, 1/4, -1⟩, ⟨0, 0, 1⟩, 1000000000⟩ ⟨0, 0, 0⟩ ⟨1, 0, 0⟩ ⟨0, 1, 0⟩
      1 (1/4) (1/4) Gatling.s1_test_face_eval
  · refine traversal_face_test_contract.2.2.2.2.1 2 (fun _ => 5)
      (1/1000000000) Gatling.s1Scene ⟨1/4, 1/4, -1⟩ ⟨0, 0, 1⟩ 1000000000
      0 0 [] 0 [] (by norm_num) ?_
    rw [Gatling.s1_faceVert_eval.1, Gatling.s1_faceVert_eval.2.1,
      Gatling.s1_faceVert_eval.2.2, Gatling.s1_test_face_eval]
    rfl

/-! ## Claim C2 -/

/-- Claim C2, counterexample: with `MAX_STACK_SIZE = 2` and the stack
already holding two groups, popping node group `(0, 0xFF000000)` in
`find_hit_any` pushes the remaining group at index 2 — beyond the
array bound, with no check and no fatal error — while the identical
state in `find_hit_closest` raises the fatal `ASSERT`.  So it is false
that in both traversal queries every push is preceded by a
`stack_size < MAX_STACK_SIZE` check. -/
theorem find_hit_any_unguarded_push_cex :
    (Gatling.anyNodePop 0 (0, 4278190080) [(0, 0), (0, 0)]).2.2 =
      [(0, 0), (0, 0), (0, 2130706432)] ∧
    Gatling.closestNodePop 2 0 (0, 4278190080) [(0, 0), (0, 0)] =
      .error "Error: traversal stack size exceeds maximum capacity\n" ∧
    ¬ ([(0, 0), (0, 0)] : List (ℕ × ℕ)).length < 2 := by
  refine ⟨?_, ?_, by norm_num⟩
  · rw [Gatling.anyNodePop_push_unguarded 0 (0, 4278190080) [(0, 0), (0, 0)]
      (by norm_num [Nat.log2])]
    rw [show (4278190080 : ℕ) % 2 ^ Nat.log2 4278190080 = 2130706432 from by
      norm_num [Nat.log2]]
    rfl
  · exact Gatling.closestNodePop_full_error 2 0 (0, 4278190080)
      [(0, 0), (0, 0)] (by norm_num [Nat.log2]) (by norm_num)

/-- Claim C2, amended: in `find_hit_closest` every push of a node group
or postponed face group is preceded by a `stack_size < MAX_STACK_SIZE`
check that raises a fatal error on overflow, so on every non-faulting
path each stack write lands at an index `< MAX_STACK_SIZE`; in
`find_hit_any` both pushes are unguarded — whenever the branch pushes,
the write lands at index `stack_size` regardless of
`MAX_STACK_SIZE`. -/
theorem traversal_stack_push_guards :
    (∀ (maxStackSize octInv4 : ℕ) (ng : ℕ × ℕ) (stack : List (ℕ × ℕ)),
      (∃ msg, Gatling.closestNodePop maxStackSize octInv4 ng stack =
        .error msg) ↔
      0x00FFFFFF < ng.2 % 2 ^ Nat.log2 ng.2 ∧
        ¬ stack.length < maxStackSize) ∧
    (∀ (maxStackSize octInv4 : ℕ) (ng : ℕ × ℕ) (stack : List (ℕ × ℕ))
      (out : ℕ × (ℕ × ℕ) × List (ℕ × ℕ)),
      Gatling.closestNodePop maxStackSize octInv4 ng stack = .ok out →
      out.2.2 = stack ∨
        (stack.length < maxStackSize ∧ out.2.2 = stack ++ [out.2.1])) ∧
    (∀ (postponing : Bool) (maxStackSize threshold : ℕ) (ballots : ℕ → ℕ)
      (triEps : ℚ) (sc : Gatling.SceneData) (origin dir : Gatling.Vec3)
      (base : ℕ) (l : List ℕ) (iter : ℕ) (st : ℚ × Gatling.Hit_info)
      (stack : List (ℕ × ℕ)) (out : (ℚ × Gatling.Hit_info) × List (ℕ × ℕ)),
      Gatling.closestFaceIterPost postponing maxStackSize threshold ballots
        triEps sc origin dir base l iter st stack = .ok out →
      out.2 = stack ∨
        (stack.length < maxStackSize ∧ ∃ m, out.2 = stack ++ [(base, m)])) ∧
    (∀ (postponing : Bool) (maxStackSize threshold : ℕ) (ballots : ℕ → ℕ)
      (triEps : ℚ) (sc : Gatling.SceneData) (origin dir : Gatling.Vec3)
      (base : ℕ) (l : List ℕ) (iter : ℕ) (st : ℚ × Gatling.Hit_info)
      (stack : List (ℕ × ℕ)) (msg : String),
      Gatling.closestFaceIterPost postponing maxStackSize threshold ballots
        triEps sc origin dir base l iter st stack = .error msg →
      maxStackSize ≤ stack.length) ∧
    (∀ (octInv4 : ℕ) (ng : ℕ × ℕ) (stack : List (ℕ × ℕ)),
      0x00FFFFFF < ng.2 % 2 ^ Nat.log2 ng.2 →
      (Gatling.anyNodePop octInv4 ng stack).2.2 =
        stack ++ [(ng.1, ng.2 % 2 ^ Nat.log2 ng.2)]) ∧
    (∀ (threshold : ℕ) (ballots : ℕ → ℕ) (triEps : ℚ)
      (sc : Gatling.SceneData) (origin dir : Gatling.Vec3) (tmax : ℚ)
      (base rel : ℕ) (rest : List ℕ) (iter : ℕ) (stack : List (ℕ × ℕ)),
      ballots iter < threshold →
      Gatling.anyFaceIter threshold ballots triEps sc origin dir tmax base
        (rel :: rest) iter stack =
        (false, stack ++ [(base, Gatling.ofBits (rel :: rest))])) := by
  refine ⟨?_, ?_, ?_, ?_, ?_, ?_⟩
  · intro maxStackSize octInv4 ng stack
    exact Gatling.closestNodePop_error_iff maxStackSize octInv4 ng stack
  · intro maxStackSize octInv4 ng stack out h
    exact Gatling.closestNodePop_ok_stack maxStackSize octInv4 ng stack out h
  · intro postponing maxStackSize threshold ballots triEps sc origin dir base
      l iter st stack out h
    exact Gatling.closestFaceIterPost_ok_stack postponing maxStackSize
      threshold ballots triEps sc origin dir base l iter st stack out h
  · intro postponing maxStackSize threshold ballots triEps sc origin dir base
      l iter st stack msg h
    exact Gatling.closestFaceIterPost_error_full postponing maxStackSize
      threshold ballots triEps sc origin dir base l iter st stack msg h
  · intro octInv4 ng stack h
    exact Gatling.anyNodePop_push_unguarded octInv4 ng stack h
  · intro threshold ballots triEps sc origin dir tmax base rel rest iter
      stack hb
    exact Gatling.anyFaceIter_postpones threshold ballots triEps sc origin
      dir tmax base rel rest iter stack hb

/-! ## Claim C3 -/

/-- Claim C3, counterexample: in `find_hit_any` the postponement branch
runs even though `TRIANGLE_POSTPONING` cannot disable it — with
threshold `2 = uint(10 · 0.2)` and an active-lane count of 0, the loop
pushes the face group and reports no hit, while the spec's
postponement-free loop tests the face and returns `true` on the very
same input.  So the postponement branch is not compile-time selectable
in `find_hit_any`. -/
theorem find_hit_any_postponement_unconditional_cex :
    Gatling.anyFaceIter 2 (fun _ => 0) (1/1000000000) Gatling.s1Scene
      ⟨1/4, 1/4, -1⟩ ⟨0, 0, 1⟩ 1000000000 0 [0] 0 [] = (false, [(0, 1)]) ∧
    Gatling.anyFaceIterSpecNoPostpone (1/1000000000) Gatling.s1Scene
      ⟨1/4, 1/4, -1⟩ ⟨0, 0, 1⟩ 1000000000 0 [0] [] = (true, []) ∧
    Gatling.postponeThreshold (1/5) 10 = 2 := by
  refine ⟨?_, ?_, ?_⟩
  · rw [Gatling.anyFaceIter_postpones 2 (fun _ => 0) (1/1000000000)
      Gatling.s1Scene ⟨1/4, 1/4, -1⟩ ⟨0, 0, 1⟩ 1000000000 0 0 [] 0 []
      (by norm_num)]
    norm_num [Gatling.ofBits]
  · rw [Gatling.anyFaceIterSpecNoPostpone_first_hit (1/1000000000)
      Gatling.s1Scene ⟨1/4, 1/4, -1⟩ ⟨0, 0, 1⟩ 1000000000 0 0 [] []
      (by rw [Gatling.s1_faceVert_eval.1, Gatling.s1_faceVert_eval.2.1,
        Gatling.s1_faceVert_eval.2.2, Gatling.s1_test_face_eval]; rfl)]
  · rw [Gatling.postponeThreshold]
    norm_num

/-- Claim C3, amended: in `find_hit_closest` the postponement branch is
compile-time selectable — with `TRIANGLE_POSTPONING` compiled out the
face loop ignores the ballot oracle and the stack and equals the plain
loop, and with it compiled in but no lane-count drop it also equals the
plain loop; postponement only defers face groups, i.e. reorders when
faces are tested, and the surviving hit distance is invariant under any
permutation of the face tests.  In `find_hit_any`, however, the
postponement branch is present unconditionally: a lane-count drop
pushes the face group with no compile-time guard, and only when the
ballot never drops does the loop equal the spec's postponement-free
loop. -/
theorem triangle_postponement_selectable_and_order_invariant :
    (∀ (maxStackSize threshold : ℕ) (ballots : ℕ → ℕ) (triEps : ℚ)
      (sc : Gatling.SceneData) (origin dir : Gatling.Vec3) (base : ℕ)
      (l : List ℕ) (iter : ℕ) (st : ℚ × Gatling.Hit_info)
      (stack : List (ℕ × ℕ)),
      Gatling.closestFaceIterPost false maxStackSize threshold ballots
        triEps sc origin dir base l iter st stack =
      .ok (Gatling.closestFaceIter triEps sc origin dir base l st, stack)) ∧
    (∀ (maxStackSize threshold : ℕ) (ballots : ℕ → ℕ) (triEps : ℚ)
      (sc : Gatling.SceneData) (origin dir : Gatling.Vec3) (base : ℕ),
      (∀ i, ¬ ballots i < threshold) →
      ∀ (l : List ℕ) (iter : ℕ) (st : ℚ × Gatling.Hit_info)
        (stack : List (ℕ × ℕ)),
        Gatling.closestFaceIterPost true maxStackSize threshold ballots
          triEps sc origin dir base l iter st stack =
        .ok (Gatling.closestFaceIter triEps sc origin dir base l st, stack)) ∧
    (∀ (triEps : ℚ) (sc : Gatling.SceneData) (origin dir : Gatling.Vec3)
      (base : ℕ) (l₁ l₂ : List ℕ) (st : ℚ × Gatling.Hit_info),
      l₁.Perm l₂ →
      (Gatling.closestFaceIter triEps sc origin dir base l₁ st).1 =
        (Gatling.closestFaceIter triEps sc origin dir base l₂ st).1) ∧
    (∀ (threshold : ℕ) (ballots : ℕ → ℕ) (triEps : ℚ)
      (sc : Gatling.SceneData) (origin dir : Gatling.Vec3) (tmax : ℚ)
      (base rel : ℕ) (rest : List ℕ) (iter : ℕ) (stack : List (ℕ × ℕ)),
      ballots iter < threshold →
      Gatling.anyFaceIter threshold ballots triEps sc origin dir tmax base
        (rel :: rest) iter stack =
        (false, stack ++ [(base, Gatling.ofBits (rel :: rest))])) ∧
    (∀ (threshold : ℕ) (ballots : ℕ → ℕ) (triEps : ℚ)
      (sc : Gatling.SceneData) (origin dir : Gatling.Vec3) (tmax : ℚ)
      (base : ℕ),
      (∀ i, ¬ ballots i < threshold) →
      ∀ (l : List ℕ) (iter : ℕ) (stack : List (ℕ × ℕ)),
        Gatling.anyFaceIter threshold ballots triEps sc origin dir tmax base
          l iter stack =
        Gatling.anyFaceIterSpecNoPostpone triEps sc origin dir tmax base l
          stack) := by
  refine ⟨?_, ?_, ?_, ?_, ?_⟩
  · intro maxStackSize threshold ballots triEps sc origin dir base l iter st stack
    exact Gatling.closestFaceIterPost_false_eq maxStackSize threshold ballots
      triEps sc origin dir base l iter st stack
  · intro maxStackSize threshold ballots triEps sc origin dir base hb l iter st stack
    exact Gatling.closestFaceIterPost_true_no_postpone maxStackSize threshold
      ballots triEps sc origin dir base hb l iter st stack
  · intro triEps sc origin dir base l₁ l₂ st hperm
    exact Gatling.closestFaceIter_fst_perm triEps sc origin dir base l₁ l₂ st hperm
  · intro threshold ballots triEps sc origin dir tmax base rel rest iter stack hb
    exact Gatling.anyFaceIter_postpones threshold ballots triEps sc origin dir
      tmax base rel rest iter stack hb
  · intro threshold ballots triEps sc origin dir tmax base hb l iter stack
    exact Gatling.anyFaceIter_no_postpone_eq_spec threshold ballots triEps sc
      origin dir tmax base hb l iter stack

/-- Claim C3, witness: on the S1 scenario with a never-postponing ballot
oracle, the `find_hit_any` loop coincides with the postponement-free
loop, and a swap of two face tests leaves the surviving closest-hit
distance unchanged. -/
theorem triangle_postponement_witness :
    Gatling.anyFaceIter 2 (fun _ => 5) (1/1000000000) Gatling.s1Scene
      ⟨1/4, 1/4, -1⟩ ⟨0, 0, 1⟩ 1000000000 0 [0] 0 [] =
      Gatling.anyFaceIterSpecNoPostpone (1/1000000000) Gatling.s1Scene
        ⟨1/4, 1/4, -1⟩ ⟨0, 0, 1⟩ 1000000000 0 [0] [] ∧
    (Gatling.closestFaceIter (1/1000000000) Gatling.s1Scene
      ⟨1/4, 1/4, -1⟩ ⟨0, 0, 1⟩ 0 [0, 1] (1000000000, ⟨4294967295, (0, 0)⟩)).1 =
    (Gatling.closestFaceIter (1/1000000000) Gatling.s1Scene
      ⟨1/4, 1/4, -1⟩ ⟨0, 0, 1⟩ 0 [1, 0] (1000000000, ⟨4294967295, (0, 0)⟩)).1 := by
  constructor
  · exact triangle_postponement_selectable_and_order_invariant.2.2.2.2 2
      (fun _ => 5) (1/1000000000) Gatling.s1Scene ⟨1/4, 1/4, -1⟩ ⟨0, 0, 1⟩
      1000000000 0 (fun i => by norm_num) [0] 0 []
  · exact triangle_postponement_selectable_and_order_invariant.2.2.1
      (1/1000000000) Gatling.s1Scene ⟨1/4, 1/4, -1⟩ ⟨0, 0, 1⟩ 0 [0, 1] [1, 0]
      (1000000000, ⟨4294967295, (0, 0)⟩) (List.Perm.swap 1 0 [])

namespace Gatling

/-! ## C6 component: scene writer
Source: `src/cgpu/src/cgpu.c`, `gp_write_scene` (lines 3330-3386).  The
`malloc`ed output buffer is modelled as `ℕ → Option ℕ`: `none` at a byte
the program never wrote (uninitialized heap memory), `some b` after a
`memcpy` stored byte `b` there.  Multi-byte integers are little-endian
as on the targeted hosts. -/

/-- `memcpy(&buffer[off], src, src.length)`. -/
def writeBytes (buf : ℕ → Option ℕ) (off : ℕ) (src : List ℕ) :
    ℕ → Option ℕ :=
  fun i => if off ≤ i ∧ i < off + src.length then some (src.getD (i - off) 0)
    else buf i

/-- Little-endian encoding of `v` in `w` bytes (memcpy of a `uintN_t`). -/
def encodeLE : ℕ → ℕ → List ℕ
  | 0, _ => []
  | w + 1, v => v % 256 :: encodeLE w (v / 256)

/-- Little-endian read-back of `len` bytes at `off`; `none` when any of
the bytes was never written. -/
def readLE (buf : ℕ → Option ℕ) (off : ℕ) : ℕ → Option ℕ
  | 0 => some 0
  | len + 1 =>
      (buf off).bind fun b =>
        (readLE buf (off + 1) len).map fun v => b + 256 * v

/-- A 4-byte scalar field of `gp_vertex` as its raw bytes. -/
def Bytes4 := ℕ × ℕ × ℕ × ℕ

/-- The bytes of a 4-byte field. -/
def Bytes4.toList (b : Bytes4) : List ℕ := [b.1, b.2.1, b.2.2.1, b.2.2.2]

/-- `gp_vertex` fields as the writer copies them: position, UV and
normal components, each a raw 4-byte float. -/
structure GpVertex where
  pos0 : Bytes4
  pos1 : Bytes4
  pos2 : Bytes4
  uv0 : Bytes4
  norm0 : Bytes4
  norm1 : Bytes4
  norm2 : Bytes4
  uv1 : Bytes4

/-- The eight 4-byte `memcpy`s of one vertex at
`ptr = &buffer[vertex_buf_offset + i * 32]` in the packed order
`pos.x, pos.y, pos.z, uv.u, norm.x, norm.y, norm.z, uv.v`. -/
def writeVertex (buf : ℕ → Option ℕ) (ptr : ℕ) (v : GpVertex) :
    ℕ → Option ℕ :=
  writeBytes (writeBytes (writeBytes (writeBytes (writeBytes (writeBytes
    (writeBytes (writeBytes buf ptr v.pos0.toList)
      (ptr + 4) v.pos1.toList) (ptr + 8) v.pos2.toList)
      (ptr + 12) v.uv0.toList) (ptr + 16) v.norm0.toList)
      (ptr + 20) v.norm1.toList) (ptr + 24) v.norm2.toList)
      (ptr + 28) v.uv1.toList

/-- The vertex-unpacking loop `for (i = 0; i < vertex_count; ++i)` with
stride 32. -/
def writeVertices (buf : ℕ → Option ℕ) (base : ℕ) :
    ℕ → List GpVertex → ℕ → Option ℕ
  | _, [] => buf
  | i, v :: rest =>
      writeVertices (writeVertex buf (base + i * 32) v) base (i + 1) rest

/-- The in-memory `gp_scene` as `gp_write_scene` consumes it: counts and
the raw bytes of each buffer (floats are opaque byte blobs). -/
structure GpScene where
  node_count : ℕ
  nodes_bytes : List ℕ
  face_count : ℕ
  faces_bytes : List ℕ
  vertex_count : ℕ
  vertices : List GpVertex
  material_count : ℕ
  materials_bytes : List ℕ
  aabb_bytes : List ℕ
  camera_bytes : List ℕ

/-- Modelled from the spec: `sizeof(gp_bvhcc_node)`.  The `gp.h` /
`bvh_compress.h` headers are not among the staged sources; §3 and §6 of
the spec fix a CWBVH node at exactly 80 bytes. -/
def sizeof_gp_bvhcc_node : ℕ := 80

/-- Modelled from the spec: `sizeof(gp_face)` — 16 bytes (§3). -/
def sizeof_gp_face : ℕ := 16

/-- Modelled from the spec: `sizeof(gp_vertex)` — 32 bytes (§3),
matching the writer's explicit `i * 32` stride. -/
def sizeof_gp_vertex : ℕ := 32

/-- Modelled from the spec: `sizeof(gp_material)` — 32 bytes (§3). -/
def sizeof_gp_material : ℕ := 32

/-- Embedding of `gp_write_scene`: computes the offset/size chain,
`malloc`s the file buffer (all bytes start unwritten), `memcpy`s the
header fields at their fixed offsets, then the node, face, vertex and
material buffers.  Returns the buffer and `file_size`. -/
def gp_write_scene (image_width image_height : ℕ) (scene : GpScene) :
    (ℕ → Option ℕ) × ℕ :=
  let header_size : ℕ := 256
  let node_buf_offset := header_size
  let node_buf_size := scene.node_count * sizeof_gp_bvhcc_node
  let face_buf_offset := node_buf_offset + node_buf_size
  let face_buf_size := scene.face_count * sizeof_gp_face
  let vertex_buf_offset := face_buf_offset + face_buf_size
  let vertex_buf_size := scene.vertex_count * sizeof_gp_vertex
  let material_buf_offset := vertex_buf_offset + vertex_buf_size
  let material_buf_size := scene.material_count * sizeof_gp_material
  let file_size := material_buf_offset + material_buf_size
  let buf0 : ℕ → Option ℕ := fun _ => none
  let buf1 := writeBytes buf0 0 (encodeLE 4 image_width)
  let buf2 := writeBytes buf1 4 (encodeLE 4 image_height)
  let buf3 := writeBytes buf2 8 (encodeLE 8 node_buf_offset)
  let buf4 := writeBytes buf3 16 (encodeLE 8 node_buf_size)
  let buf5 := writeBytes buf4 24 (encodeLE 8 face_buf_offset)
  let buf6 := writeBytes buf5 32 (encodeLE 8 face_buf_size)
  let buf7 := writeBytes buf6 40 (encodeLE 8 vertex_buf_offset)
  let buf8 := writeBytes buf7 48 (encodeLE 8 vertex_buf_size)
  let buf9 := writeBytes buf8 56 (encodeLE 8 material_buf_offset)
  let buf10 := writeBytes buf9 64 (encodeLE 8 material_buf_size)
  let buf11 := writeBytes buf10 72 scene.aabb_bytes
  let buf12 := writeBytes buf11 96 scene.camera_bytes
  let buf13 := writeBytes buf12 node_buf_offset scene.nodes_bytes
  let buf14 := writeBytes buf13 face_buf_offset scene.faces_bytes
  let buf15 := writeVertices buf14 vertex_buf_offset 0 scene.vertices
  let buf16 := writeBytes buf15 material_buf_offset scene.materials_bytes
  (buf16, file_size)

end Gatling

namespace Gatling

theorem encodeLE_length : ∀ (w v : ℕ), (encodeLE w v).length = w := by
  intro w
  induction w with
  | zero => intro v; rfl
  | succ w ih => intro v; simp [encodeLE, ih]

/-- A `memcpy` leaves every byte outside `[off, off + len)` alone. -/
theorem writeBytes_outside (buf : ℕ → Option ℕ) (off : ℕ) (src : List ℕ)
    (i : ℕ) (h : i < off ∨ off + src.length ≤ i) :
    writeBytes buf off src i = buf i := by
  rw [writeBytes, if_neg]
  omega

/-- Writing `b :: rest` is writing `b` at `off` and `rest` above it. -/
theorem writeBytes_cons (buf : ℕ → Option ℕ) (off : ℕ) (b : ℕ)
    (rest : List ℕ) (i : ℕ) :
    writeBytes buf off (b :: rest) i =
      if i = off then some b else writeBytes buf (off + 1) rest i := by
  simp only [writeBytes, List.length_cons]
  split_ifs with h1 h2 h3 <;> try omega
  · subst h2
    simp
  · have : i - off = (i - (off + 1)) + 1 := by omega
    rw [this]
    simp
  · rfl

/-- `readLE` only looks at the bytes `[off, off + len)`. -/
theorem readLE_congr (buf1 buf2 : ℕ → Option ℕ) :
    ∀ (len off : ℕ), (∀ k, k < len → buf1 (off + k) = buf2 (off + k)) →
      readLE buf1 off len = readLE buf2 off len := by
  intro len
  induction len with
  | zero => intro off _; rfl
  | succ len ih =>
    intro off h
    rw [readLE, readLE]
    have h0 : buf1 off = buf2 off := by simpa using h 0 (Nat.succ_pos len)
    rw [h0, ih (off + 1) (fun k hk => by
      have := h (1 + k) (by omega)
      simpa [Nat.add_assoc] using this)]

/-- Read-back of a little-endian write: the stored value comes out. -/
theorem readLE_writeBytes : ∀ (w : ℕ) (buf : ℕ → Option ℕ) (off v : ℕ),
    v < 256 ^ w → readLE (writeBytes buf off (encodeLE w v)) off w = some v := by
  intro w
  induction w with
  | zero =>
    intro buf off v hv
    interval_cases v
    rfl
  | succ w ih =>
    intro buf off v hv
    rw [encodeLE, readLE]
    rw [show writeBytes buf off (v % 256 :: encodeLE w (v / 256)) off =
      some (v % 256) from by rw [writeBytes_cons]; simp]
    rw [readLE_congr (writeBytes buf off (v % 256 :: encodeLE w (v / 256)))
      (writeBytes buf (off + 1) (encodeLE w (v / 256))) w (off + 1)
      (fun k _ => by rw [writeBytes_cons, if_neg (by omega)])]
    rw [ih buf (off + 1) (v / 256) (by
      have : 256 ^ (w + 1) = 256 ^ w * 256 := by ring
      omega)]
    simp [Nat.mod_add_div]

/-- Read-back is unaffected by a disjoint later write. -/
theorem readLE_writeBytes_disjoint (buf : ℕ → Option ℕ) (off : ℕ)
    (src : List ℕ) (o l : ℕ) (h : o + l ≤ off ∨ off + src.length ≤ o) :
    readLE (writeBytes buf off src) o l = readLE buf o l := by
  refine readLE_congr _ _ l o (fun k hk => ?_)
  exact writeBytes_outside buf off src (o + k) (by omega)

/-- The eight field writes of one vertex never touch bytes below the
vertex's own 32-byte slot. -/
theorem writeVertex_before (buf : ℕ → Option ℕ) (ptr : ℕ) (v : GpVertex)
    (j : ℕ) (h : j < ptr) : writeVertex buf ptr v j = buf j := by
  rw [writeVertex]
  rw [writeBytes_outside _ _ _ _ (Or.inl (by omega))]
  rw [writeBytes_outside _ _ _ _ (Or.inl (by omega))]
  rw [writeBytes_outside _ _ _ _ (Or.inl (by omega))]
  rw [writeBytes_outside _ _ _ _ (Or.inl (by omega))]
  rw [writeBytes_outside _ _ _ _ (Or.inl (by omega))]
  rw [writeBytes_outside _ _ _ _ (Or.inl (by omega))]
  rw [writeBytes_outside _ _ _ _ (Or.inl (by omega))]
  rw [writeBytes_outside _ _ _ _ (Or.inl h)]

/-- The vertex loop never touches bytes below `vertex_buf_offset`. -/
theorem writeVertices_before (base : ℕ) :
    ∀ (vs : List GpVertex) (buf : ℕ → Option ℕ) (i j : ℕ), j < base →
      writeVertices buf base i vs j = buf j := by
  intro vs
  induction vs with
  | nil => intro buf i j _; rfl
  | cons v rest ih =>
    intro buf i j hj
    rw [writeVertices, ih _ (i + 1) j hj,
      writeVertex_before buf (base + i * 32) v j (by omega)]

end Gatling

namespace Gatling

/-- Read-back below a later write is unaffected. -/
theorem readLE_writeBytes_below (buf : ℕ → Option ℕ) (off : ℕ)
    (src : List ℕ) (o l : ℕ) (h : o + l ≤ off) :
    readLE (writeBytes buf off src) o l = readLE buf o l :=
  readLE_writeBytes_disjoint buf off src o l (Or.inl h)

/-- Read-back below the vertex area is unaffected by the vertex loop. -/
theorem readLE_writeVertices_below (buf : ℕ → Option ℕ) (base i : ℕ)
    (vs : List GpVertex) (o l : ℕ) (h : o + l ≤ base) :
    readLE (writeVertices buf base i vs) o l = readLE buf o l :=
  readLE_congr _ _ l o (fun k hk =>
    writeVertices_before base vs buf i (o + k) (by omega))

end Gatling

/-! ## Claim C5 -/

/-- Claim C5: in every written scene file, the header's node-buffer
offset is 256 (immediately past the fixed 256-byte header), the four
buffers are contiguous — `node_off + node_size = face_off`,
`face_off + face_size = vertex_off`, `vertex_off + vertex_size =
material_off`, `material_off + material_size = file_size` — and each
size is the exact byte length of its buffer (`node_count × 80`,
`face_count × 16`, `vertex_count × 32`, `material_count × 32`).
Stated over the little-endian read-back of the emitted header. -/
theorem gp_write_scene_header_offsets (w h : ℕ) (scene : Gatling.GpScene)
    (hsize : (Gatling.gp_write_scene w h scene).2 < 2 ^ 64) :
    Gatling.readLE (Gatling.gp_write_scene w h scene).1 8 8 = some 256 ∧
    Gatling.readLE (Gatling.gp_write_scene w h scene).1 16 8 =
      some (scene.node_count * 80) ∧
    Gatling.readLE (Gatling.gp_write_scene w h scene).1 24 8 =
      some (256 + scene.node_count * 80) ∧
    Gatling.readLE (Gatling.gp_write_scene w h scene).1 32 8 =
      some (scene.face_count * 16) ∧
    Gatling.readLE (Gatling.gp_write_scene w h scene).1 40 8 =
      some (256 + scene.node_count * 80 + scene.face_count * 16) ∧
    Gatling.readLE (Gatling.gp_write_scene w h scene).1 48 8 =
      some (scene.vertex_count * 32) ∧
    Gatling.readLE (Gatling.gp_write_scene w h scene).1 56 8 =
      some (256 + scene.node_count * 80 + scene.face_count * 16 +
        scene.vertex_count * 32) ∧
    Gatling.readLE (Gatling.gp_write_scene w h scene).1 64 8 =
      some (scene.material_count * 32) ∧
    (Gatling.gp_write_scene w h scene).2 =
      256 + scene.node_count * 80 + scene.face_count * 16 +
        scene.vertex_count * 32 + scene.material_count * 32 := by
  simp only [Gatling.gp_write_scene, Gatling.sizeof_gp_bvhcc_node,
    Gatling.sizeof_gp_face, Gatling.sizeof_gp_vertex,
    Gatling.sizeof_gp_material] at hsize ⊢
  have hlit : 256 + scene.node_count * 80 + scene.face_count * 16 +
      scene.vertex_count * 32 + scene.material_count * 32 <
      18446744073709551616 := by
    have h2 : (2 : ℕ) ^ 64 = 18446744073709551616 := by norm_num
    rw [h2] at hsize
    omega
  refine ⟨?_, ?_, ?_, ?_, ?_, ?_, ?_, ?_, trivial⟩ <;>
    rw [Gatling.readLE_writeBytes_below _ _ _ _ _ (by omega),
      Gatling.readLE_writeVertices_below _ _ _ _ _ _ (by omega),
      Gatling.readLE_writeBytes_below _ _ _ _ _ (by omega),
      Gatling.readLE_writeBytes_below _ _ _ _ _ (by omega),
      Gatling.readLE_writeBytes_below _ _ _ _ _ (by omega),
      Gatling.readLE_writeBytes_below _ _ _ _ _ (by omega)]
  · rw [Gatling.readLE_writeBytes_below _ _ _ _ _ (by omega)]
    rw [Gatling.readLE_writeBytes_below _ _ _ _ _ (by omega)]
    rw [Gatling.readLE_writeBytes_below _ _ _ _ _ (by omega)]
    rw [Gatling.readLE_writeBytes_below _ _ _ _ _ (by omega)]
    rw [Gatling.readLE_writeBytes_below _ _ _ _ _ (by omega)]
    rw [Gatling.readLE_writeBytes_below _ _ _ _ _ (by omega)]
    rw [Gatling.readLE_writeBytes_below _ _ _ _ _ (by omega)]
    exact Gatling.readLE_writeBytes 8 _ 8 256 ((by norm_num))
  · rw [Gatling.readLE_writeBytes_below _ _ _ _ _ (by omega)]
    rw [Gatling.readLE_writeBytes_below _ _ _ _ _ (by omega)]
    rw [Gatling.readLE_writeBytes_below _ _ _ _ _ (by omega)]
    rw [Gatling.readLE_writeBytes_below _ _ _ _ _ (by omega)]
    rw [Gatling.readLE_writeBytes_below _ _ _ _ _ (by omega)]
    rw [Gatling.readLE_writeBytes_below _ _ _ _ _ (by omega)]
    exact Gatling.readLE_writeBytes 8 _ 16 (scene.node_count * 80) ((by rw [show (256:ℕ)^8 = 18446744073709551616 from by norm_num]; omega))
  · rw [Gatling.readLE_writeBytes_below _ _ _ _ _ (by omega)]
    rw [Gatling.readLE_writeBytes_below _ _ _ _ _ (by omega)]
    rw [Gatling.readLE_writeBytes_below _ _ _ _ _ (by omega)]
    rw [Gatling.readLE_writeBytes_below _ _ _ _ _ (by omega)]
    rw [Gatling.readLE_writeBytes_below _ _ _ _ _ (by omega)]
    exact Gatling.readLE_writeBytes 8 _ 24 (256 + scene.node_count * 80) ((by rw [show (256:ℕ)^8 = 18446744073709551616 from by norm_num]; omega))
  · rw [Gatling.readLE_writeBytes_below _ _ _ _ _ (by omega)]
    rw [Gatling.readLE_writeBytes_below _ _ _ _ _ (by omega)]
    rw [Gatling.readLE_writeBytes_below _ _ _ _ _ (by omega)]
    rw [Gatling.readLE_writeBytes_below _ _ _ _ _ (by omega)]
    exact Gatling.readLE_writeBytes 8 _ 32 (scene.face_count * 16) ((by rw [show (256:ℕ)^8 = 18446744073709551616 from by norm_num]; omega))
  · rw [Gatling.readLE_writeBytes_below _ _ _ _ _ (by omega)]
    rw [Gatling.readLE_writeBytes_below _ _ _ _ _ (by omega)]
    rw [Gatling.readLE_writeBytes_below _ _ _ _ _ (by omega)]
    exact Gatling.readLE_writeBytes 8 _ 40 (256 + scene.node_count * 80 + scene.face_count * 16) ((by rw [show (256:ℕ)^8 = 18446744073709551616 from by norm_num]; omega))
  · rw [Gatling.readLE_writeBytes_below _ _ _ _ _ (by omega)]
    rw [Gatling.readLE_writeBytes_below _ _ _ _ _ (by omega)]
    exact Gatling.readLE_writeBytes 8 _ 48 (scene.vertex_count * 32) ((by rw [show (256:ℕ)^8 = 18446744073709551616 from by norm_num]; omega))
  · rw [Gatling.readLE_writeBytes_below _ _ _ _ _ (by omega)]
    exact Gatling.readLE_writeBytes 8 _ 56 (256 + scene.node_count * 80 + scene.face_count * 16 + scene.vertex_count * 32) ((by rw [show (256:ℕ)^8 = 18446744073709551616 from by norm_num]; omega))
  · exact Gatling.readLE_writeBytes 8 _ 64 (scene.material_count * 32) ((by rw [show (256:ℕ)^8 = 18446744073709551616 from by norm_num]; omega))

namespace Gatling

/-- The trivial scene: no nodes, faces, vertices or materials; AABB and
camera records zeroed. -/
def emptyGpScene : GpScene :=
  ⟨0, [], 0, [], 0, [], 0, [], List.replicate 24 0, List.replicate 40 0⟩

end Gatling

/-- Claim C5, witness: the header of the file written for the empty
scene reads back `node_off = 256` and `file_size = 256`. -/
theorem gp_write_scene_header_offsets_witness :
    Gatling.readLE (Gatling.gp_write_scene 1 1 Gatling.emptyGpScene).1 8 8 =
      some 256 ∧
    (Gatling.gp_write_scene 1 1 Gatling.emptyGpScene).2 = 256 := by
  have h := gp_write_scene_header_offsets 1 1 Gatling.emptyGpScene
    (by norm_num [Gatling.gp_write_scene, Gatling.emptyGpScene,
      Gatling.sizeof_gp_bvhcc_node, Gatling.sizeof_gp_face,
      Gatling.sizeof_gp_vertex, Gatling.sizeof_gp_material])
  refine ⟨h.1, ?_⟩
  have h9 := h.2.2.2.2.2.2.2.2
  simpa [Gatling.emptyGpScene] using h9

/-! ## Claim C6 -/

/-- Claim C6 (code bug): the writer `malloc`s the file buffer and never
writes the 120 reserved header bytes at offsets 136 through 255 — no
`memset`, no zero fill — so the file receives uninitialized heap bytes
there rather than the zeros the on-disk format reserves. -/
theorem gp_write_scene_reserved_bytes_unwritten (w h : ℕ)
    (scene : Gatling.GpScene) (hab : scene.aabb_bytes.length = 24)
    (hcam : scene.camera_bytes.length = 40) (i : ℕ) (h1 : 136 ≤ i)
    (h2 : i < 256) : (Gatling.gp_write_scene w h scene).1 i = none := by
  simp only [Gatling.gp_write_scene, Gatling.sizeof_gp_bvhcc_node,
    Gatling.sizeof_gp_face, Gatling.sizeof_gp_vertex,
    Gatling.sizeof_gp_material]
  rw [Gatling.writeBytes_outside _ _ _ _ (Or.inl (by omega))]
  rw [Gatling.writeVertices_before _ _ _ _ _ (by omega)]
  rw [Gatling.writeBytes_outside _ _ _ _ (Or.inl (by omega))]
  rw [Gatling.writeBytes_outside _ _ _ _ (Or.inl (by omega))]
  rw [Gatling.writeBytes_outside _ _ _ _ (Or.inr (by rw [hcam]; omega))]
  rw [Gatling.writeBytes_outside _ _ _ _ (Or.inr (by rw [hab]; omega))]
  rw [Gatling.writeBytes_outside _ _ _ _
    (Or.inr (by rw [Gatling.encodeLE_length]; omega))]
  rw [Gatling.writeBytes_outside _ _ _ _
    (Or.inr (by rw [Gatling.encodeLE_length]; omega))]
  rw [Gatling.writeBytes_outside _ _ _ _
    (Or.inr (by rw [Gatling.encodeLE_length]; omega))]
  rw [Gatling.writeBytes_outside _ _ _ _
    (Or.inr (by rw [Gatling.encodeLE_length]; omega))]
  rw [Gatling.writeBytes_outside _ _ _ _
    (Or.inr (by rw [Gatling.encodeLE_length]; omega))]
  rw [Gatling.writeBytes_outside _ _ _ _
    (Or.inr (by rw [Gatling.encodeLE_length]; omega))]
  rw [Gatling.writeBytes_outside _ _ _ _
    (Or.inr (by rw [Gatling.encodeLE_length]; omega))]
  rw [Gatling.writeBytes_outside _ _ _ _
    (Or.inr (by rw [Gatling.encodeLE_length]; omega))]
  rw [Gatling.writeBytes_outside _ _ _ _
    (Or.inr (by rw [Gatling.encodeLE_length]; omega))]
  rw [Gatling.writeBytes_outside _ _ _ _
    (Or.inr (by rw [Gatling.encodeLE_length]; omega))]

/-- Claim C6, witness: byte 136 of the file written for the empty scene
was never written by the program. -/
theorem gp_write_scene_reserved_bytes_unwritten_witness :
    (Gatling.gp_write_scene 1 1 Gatling.emptyGpScene).1 136 = none :=
  gp_write_scene_reserved_bytes_unwritten 1 1 Gatling.emptyGpScene
    (by simp [Gatling.emptyGpScene]) (by simp [Gatling.emptyGpScene])
    136 (by norm_num) (by norm_num)


namespace Gatling

/-! ## C8 component: descriptor bindings and implicit image-layout transitions

Shallow embedding of `cgpu_transition_image_layouts_for_shader`
(src/src/cgpu/src/cgpu.c:1940-2056) and the descriptor-collection loop of
`cgpu_cmd_update_bindings` (cgpu.c:2058-2245).

Vulkan enums are embedded as small inductives; `VkAccessFlags` is a natural
number bitmask.  Internal resource tables (`cgpu_iimage` etc.) become lists
indexed by the resolved handle: `list[h]? = none` models a handle that fails
to resolve.  The C functions return `bool` and set a thread-local error
string; we return `Except String` with the error message.  The fixed-size
stack arrays (`barriers`, `buffer_infos`, `image_infos`,
`write_descriptor_sets`) become lists that grow by one exactly where the C
code increments the corresponding counter, so a list length exceeding the
`MAX_*` constant reproduces an out-of-bounds write of the C code. -/

inductive DescriptorType where
  | sampledImage
  | storageImage
  | storageBuffer
  | sampler
deriving DecidableEq

inductive ImageLayout where
  | undefined
  | general
  | shaderReadOnly
deriving DecidableEq

def VK_ACCESS_SHADER_READ_BIT : ℕ := 32

def VK_ACCESS_SHADER_WRITE_BIT : ℕ := 64

def MAX_IMAGE_MEMORY_BARRIERS : ℕ := 2048

def MAX_DESCRIPTOR_BUFFER_INFOS : ℕ := 64

def MAX_DESCRIPTOR_IMAGE_INFOS : ℕ := 2048

def MAX_WRITE_DESCRIPTOR_SETS : ℕ := 128

/-- One entry of `cgpu_shader_reflection.bindings`. -/
structure ReflBinding where
  binding : ℕ
  descriptorType : DescriptorType
  count : ℕ
  readAccess : Bool
  writeAccess : Bool
deriving DecidableEq

/-- `cgpu_image_binding`: `image` is the handle (index into the image
table), `binding`/`index` name the descriptor slot. -/
structure ImageBinding where
  image : ℕ
  binding : ℕ
  index : ℕ
deriving DecidableEq

/-- The mutable per-image state `cgpu_iimage.{layout, access_mask}`. -/
structure ImageState where
  layout : ImageLayout
  accessMask : ℕ
deriving DecidableEq

/-- The fields of `VkImageMemoryBarrier` that the code computes (the
constant fields sType/pNext/queue families/subresource range are elided). -/
structure ImageBarrier where
  srcAccessMask : ℕ
  dstAccessMask : ℕ
  oldLayout : ImageLayout
  newLayout : ImageLayout
  image : ℕ
deriving DecidableEq

/-- cgpu.c:1962-1976: the target layout chosen for a reflection binding;
`none` models the `continue` for non-image descriptor types. -/
def shaderImageTargetLayout : DescriptorType → Option ImageLayout
  | .sampledImage => some .shaderReadOnly
  | .storageImage => some .general
  | _ => none

/-- cgpu.c:2006-2012: `access_mask = 0; if (read) access_mask = READ;
if (write) access_mask = WRITE;` — plain assignment, so write overrides
read. -/
def transitionAccessMask (b : ReflBinding) : ℕ :=
  let m0 : ℕ := 0
  let m1 := if b.readAccess then VK_ACCESS_SHADER_READ_BIT else m0
  if b.writeAccess then VK_ACCESS_SHADER_WRITE_BIT else m1

/-- cgpu.c:1981-1989: linear scan for the image bound at `(bindingNo, idx)`,
taking the first match. -/
def findImageBinding (imageBindings : List ImageBinding) (bindingNo idx : ℕ) :
    Option ImageBinding :=
  imageBindings.find? (fun ib => ib.binding == bindingNo && ib.index == idx)

/-- One inner-loop iteration of `cgpu_transition_image_layouts_for_shader`
(cgpu.c:1978-2036) for the slot `(p.1, p.2)`, threading the image table and
the barrier array. -/
def transitionStep (maxBarriers : ℕ) (imageBindings : List ImageBinding)
    (st : List ImageState × List ImageBarrier) (p : ReflBinding × ℕ) :
    Except String (List ImageState × List ImageBarrier) :=
  match shaderImageTargetLayout p.1.descriptorType with
  | none => .ok st
  | some newLayout =>
    match findImageBinding imageBindings p.1.binding p.2 with
    | none => .error "descriptor set binding mismatch"
    | some ib =>
      match st.1[ib.image]? with
      | none => .error "invalid handle"
      | some img =>
        if img.layout = newLayout then .ok st
        else if maxBarriers ≤ st.2.length then .error "hardcoded limit reached"
        else .ok (st.1.set ib.image ⟨newLayout, transitionAccessMask p.1⟩,
          st.2 ++ [⟨img.accessMask, transitionAccessMask p.1, img.layout,
            newLayout, ib.image⟩])

/-- The flattened iteration space of the two nested loops
(cgpu.c:1959-1978): all `(binding, j)` slots of image-typed reflection
bindings, in program order. -/
def imageBindingPairs (reflBindings : List ReflBinding) :
    List (ReflBinding × ℕ) :=
  (reflBindings.filter
      (fun b => (shaderImageTargetLayout b.descriptorType).isSome)).flatMap
    (fun b => (List.range b.count).map (fun j => (b, j)))

def transitionLoop (maxBarriers : ℕ) (imageBindings : List ImageBinding) :
    List (ReflBinding × ℕ) → List ImageState × List ImageBarrier →
    Except String (List ImageState × List ImageBarrier)
  | [], st => .ok st
  | p :: rest, st =>
    (transitionStep maxBarriers imageBindings st p).bind
      (fun st2 => transitionLoop maxBarriers imageBindings rest st2)

/-- `cgpu_transition_image_layouts_for_shader` (cgpu.c:1940-2056), minus the
handle resolution of shader/device and the final `vkCmdPipelineBarrier`
submission: the returned pair is the image table after all transitions and
the emitted barrier array. -/
def cgpu_transition_image_layouts_for_shader (reflBindings : List ReflBinding)
    (imageBindings : List ImageBinding) (images : List ImageState) :
    Except String (List ImageState × List ImageBarrier) :=
  transitionLoop MAX_IMAGE_MEMORY_BARRIERS imageBindings
    (imageBindingPairs reflBindings) (images, [])

/-- `VkDescriptorSetLayoutBinding` as used by the update loop. -/
structure LayoutBinding where
  binding : ℕ
  descriptorType : DescriptorType
  descriptorCount : ℕ
deriving DecidableEq

/-- `cgpu_buffer_binding`. -/
structure BufferBinding where
  buffer : ℕ
  binding : ℕ
  index : ℕ
  offset : ℕ
  size : ℕ
deriving DecidableEq

/-- `cgpu_sampler_binding`. -/
structure SamplerBinding where
  sampler : ℕ
  binding : ℕ
  index : ℕ
deriving DecidableEq

/-- `VkDescriptorBufferInfo`. -/
structure BufferInfo where
  buffer : ℕ
  offset : ℕ
  range : ℕ
deriving DecidableEq

/-- `VkDescriptorImageInfo`. -/
structure ImageInfo where
  sampler : ℕ
  imageView : ℕ
  imageLayout : ImageLayout
deriving DecidableEq

/-- The fields of `VkWriteDescriptorSet` the loop computes; the `pBufferInfo`
/ `pImageInfo` pointers become indices into the info arrays (`none` = NULL). -/
structure WriteSet where
  dstBinding : ℕ
  descriptorCount : ℕ
  descriptorType : DescriptorType
  pBufferInfo : Option ℕ
  pImageInfo : Option ℕ
deriving DecidableEq

/-- Modelled from the spec: `CGPU_WHOLE_SIZE` is declared in the public
cgpu header, which is absent from src/; its exact sentinel value
(`UINT64_MAX`) is irrelevant to the theorems below, which bind explicit
sizes. -/
def CGPU_WHOLE_SIZE : ℕ := 2 ^ 64 - 1

/-- The inputs of `cgpu_cmd_update_bindings` together with the resolved
resource tables: `buffers[h]? = some size` models a `cgpu_ibuffer` of that
size, `images[h]?` a `cgpu_iimage` (image_view, layout), `samplers[h]?` a
`cgpu_isampler`. -/
structure BindEnv where
  minStorageBufferOffsetAlignment : ℕ
  bufferBindings : List BufferBinding
  imageBindings : List ImageBinding
  samplerBindings : List SamplerBinding
  buffers : List ℕ
  images : List (ℕ × ImageLayout)
  samplers : List ℕ

/-- The state threaded through one descriptor slot `j` of a layout binding:
the two scratch info arrays plus the write set's two pointers. -/
structure SlotState where
  bufferInfos : List BufferInfo
  imageInfos : List ImageInfo
  pBufferInfo : Option ℕ
  pImageInfo : Option ℕ
deriving DecidableEq

/-- One iteration of the `j` loop of `cgpu_cmd_update_bindings`
(cgpu.c:2116-2236).  Note the guard on the storage-buffer path
(cgpu.c:2141) tests `image_info_count` against
`MAX_DESCRIPTOR_BUFFER_INFOS`, exactly as in the source. -/
def updateSlot (env : BindEnv) (lb : LayoutBinding) (j : ℕ)
    (st : SlotState) : Except String SlotState :=
  match lb.descriptorType with
  | .storageBuffer =>
    match env.bufferBindings.find?
        (fun bb => bb.binding == lb.binding && bb.index == j) with
    | none => .error "resource binding mismatch"
    | some bb =>
      match env.buffers[bb.buffer]? with
      | none => .error "invalid handle"
      | some bufSize =>
        if bb.offset % env.minStorageBufferOffsetAlignment ≠ 0 then
          .error "buffer binding offset not aligned"
        else if MAX_DESCRIPTOR_BUFFER_INFOS ≤ st.imageInfos.length then
          .error "hardcoded limit reached"
        else
          .ok ⟨st.bufferInfos ++ [⟨bb.buffer, bb.offset,
                if bb.size = CGPU_WHOLE_SIZE then bufSize - bb.offset
                else bb.size⟩],
            st.imageInfos,
            if j = 0 then some st.bufferInfos.length else st.pBufferInfo,
            st.pImageInfo⟩
  | .storageImage =>
    match findImageBinding env.imageBindings lb.binding j with
    | none => .error "resource binding mismatch"
    | some ib =>
      match env.images[ib.image]? with
      | none => .error "invalid handle"
      | some img =>
        if MAX_DESCRIPTOR_IMAGE_INFOS ≤ st.imageInfos.length then
          .error "hardcoded limit reached"
        else
          .ok ⟨st.bufferInfos, st.imageInfos ++ [⟨0, img.1, img.2⟩],
            st.pBufferInfo,
            if j = 0 then some st.imageInfos.length else st.pImageInfo⟩
  | .sampledImage =>
    match findImageBinding env.imageBindings lb.binding j with
    | none => .error "resource binding mismatch"
    | some ib =>
      match env.images[ib.image]? with
      | none => .error "invalid handle"
      | some img =>
        if MAX_DESCRIPTOR_IMAGE_INFOS ≤ st.imageInfos.length then
          .error "hardcoded limit reached"
        else
          .ok ⟨st.bufferInfos, st.imageInfos ++ [⟨0, img.1, img.2⟩],
            st.pBufferInfo,
            if j = 0 then some st.imageInfos.length else st.pImageInfo⟩
  | .sampler =>
    match env.samplerBindings.find?
        (fun sb => sb.binding == lb.binding && sb.index == j) with
    | none => .error "resource binding mismatch"
    | some sb =>
      match env.samplers[sb.sampler]? with
      | none => .error "invalid handle"
      | some vkSampler =>
        if MAX_DESCRIPTOR_IMAGE_INFOS ≤ st.imageInfos.length then
          .error "hardcoded limit reached"
        else
          .ok ⟨st.bufferInfos, st.imageInfos ++ [⟨vkSampler, 0, .undefined⟩],
            st.pBufferInfo,
            if j = 0 then some st.imageInfos.length else st.pImageInfo⟩

def updateSlots (env : BindEnv) (lb : LayoutBinding) :
    List ℕ → SlotState → Except String SlotState
  | [], st => .ok st
  | j :: rest, st =>
    (updateSlot env lb j st).bind (fun st2 => updateSlots env lb rest st2)

/-- One iteration of the `i` loop (cgpu.c:2095-2237): guard on the write-set
array, run the descriptor slots, then record the completed write set.  In
the C code the write set is pushed first and its pointers are filled through
the slot loop; appending the finished record is observationally the same. -/
def updateBindingStep (env : BindEnv)
    (st : List BufferInfo × List ImageInfo × List WriteSet)
    (lb : LayoutBinding) :
    Except String (List BufferInfo × List ImageInfo × List WriteSet) :=
  if MAX_WRITE_DESCRIPTOR_SETS ≤ st.2.2.length then
    .error "hardcoded limit reached"
  else
    (updateSlots env lb (List.range lb.descriptorCount)
        ⟨st.1, st.2.1, none, none⟩).map
      (fun s => (s.bufferInfos, s.imageInfos,
        st.2.2 ++ [⟨lb.binding, lb.descriptorCount, lb.descriptorType,
          s.pBufferInfo, s.pImageInfo⟩]))

def updateBindingsLoop (env : BindEnv) :
    List LayoutBinding → List BufferInfo × List ImageInfo × List WriteSet →
    Except String (List BufferInfo × List ImageInfo × List WriteSet)
  | [], st => .ok st
  | lb :: rest, st =>
    (updateBindingStep env st lb).bind
      (fun st2 => updateBindingsLoop env rest st2)

/-- The descriptor-collection loop of `cgpu_cmd_update_bindings`
(cgpu.c:2086-2237), minus handle resolution, the preceding layout
transitions, and the final `vkUpdateDescriptorSets` call: the result is the
filled buffer-info, image-info and write-descriptor-set arrays. -/
def cgpu_cmd_update_bindings (env : BindEnv)
    (layoutBindings : List LayoutBinding) :
    Except String (List BufferInfo × List ImageInfo × List WriteSet) :=
  updateBindingsLoop env layoutBindings ([], [], [])

end Gatling

/-! ## Claim C7 -/

/-- **C7**: refuted as stated; the code diverges from the spec.  For a
sampled-image binding the transition indeed tracks layout `ShaderReadOnly`
with access mask `ShaderRead` (first conjunct).  For a storage-image
binding reflected as both read and written, the tracked layout is
`General` but the tracked access mask (and the barrier's dstAccessMask) is
`ShaderWrite` alone — cgpu.c:2006-2012 assigns the mask with `=` instead
of `|=`, so the write bit overwrites the read bit and the result differs
from `ShaderRead|ShaderWrite` (remaining conjuncts). -/
theorem transition_image_layouts_access_mask_overwrite :
    Gatling.cgpu_transition_image_layouts_for_shader
        [⟨0, .sampledImage, 1, true, false⟩] [⟨0, 0, 0⟩]
        [⟨.undefined, 0⟩] =
      .ok ([⟨.shaderReadOnly, Gatling.VK_ACCESS_SHADER_READ_BIT⟩],
        [⟨0, Gatling.VK_ACCESS_SHADER_READ_BIT, .undefined, .shaderReadOnly,
          0⟩]) ∧
    Gatling.cgpu_transition_image_layouts_for_shader
        [⟨0, .storageImage, 1, true, true⟩] [⟨0, 0, 0⟩]
        [⟨.undefined, 0⟩] =
      .ok ([⟨.general, Gatling.VK_ACCESS_SHADER_WRITE_BIT⟩],
        [⟨0, Gatling.VK_ACCESS_SHADER_WRITE_BIT, .undefined, .general, 0⟩]) ∧
    Gatling.VK_ACCESS_SHADER_WRITE_BIT ≠
      (Gatling.VK_ACCESS_SHADER_READ_BIT |||
        Gatling.VK_ACCESS_SHADER_WRITE_BIT) := by
  refine ⟨rfl, rfl, by decide⟩

/-! ## Claim C8 -/

namespace Gatling

/-- A pipeline layout with a single storage-buffer binding of 65 descriptor
slots, and 65 matching buffer bindings (no images), exercising the
buffer-info append guard. -/
def c8Env : BindEnv :=
  ⟨64,
    (List.range 65).map (fun j => ⟨0, 0, j, 0, 16⟩),
    [], [], [1024], [], []⟩

def c8Layouts : List LayoutBinding := [⟨0, .storageBuffer, 65⟩]

end Gatling

/-- **C8**: refuted; the code has an out-of-bounds bug.  The guard before
appending a buffer info (cgpu.c:2141) tests `image_info_count` (a
copy-paste of the image path) instead of `buffer_info_count` against
`MAX_DESCRIPTOR_BUFFER_INFOS`.  With one storage-buffer layout binding of
65 slots and no images bound, `image_info_count` stays 0, the guard never
fires, and the call succeeds having appended 65 buffer infos into the
64-entry `buffer_infos` array — an out-of-bounds stack write in the C
code, not a `HardcodedLimitReached` failure. -/
theorem update_bindings_buffer_info_guard_mismatch :
    (Gatling.cgpu_cmd_update_bindings Gatling.c8Env
        Gatling.c8Layouts).map (fun out => out.1.length) = .ok 65 ∧
    Gatling.MAX_DESCRIPTOR_BUFFER_INFOS < 65 := by
  refine ⟨rfl, by decide⟩


namespace Gatling

/-! ## C9 component: CPU gamma correction

Shallow embedding of `AccurateLinearToSrgb` (src/src/gatling/main.cpp:81-88).
The `float` arithmetic is embedded exactly over ℝ (literals as written in
the source; `std::pow` as `Real.rpow`). -/

noncomputable def AccurateLinearToSrgb (linearValue : ℝ) : ℝ :=
  let sRgbLo := linearValue * 12.92
  let sRgbHi := |linearValue| ^ ((1:ℝ) / 2.4) * 1.055 - 0.055
  if linearValue ≤ 0.0031308 then sRgbLo else sRgbHi

/-- The curve exactly as the spec words it:
`linear < 0.0031308 ? 12.92*linear : 1.055*linear^(1/2.4) - 0.055`
(strict `<` at the boundary), for refinement comparison with the code's
`AccurateLinearToSrgb`. -/
noncomputable def specSrgbCurve (linear : ℝ) : ℝ :=
  if linear < 0.0031308 then 12.92 * linear
  else 1.055 * linear ^ ((1:ℝ) / 2.4) - 0.055

theorem rpow_inv_gamma_pow (x : ℝ) (hx : 0 ≤ x) :
    (x ^ ((1:ℝ) / 2.4)) ^ (12:ℕ) = x ^ (5:ℕ) := by
  rw [← Real.rpow_natCast (x ^ ((1:ℝ) / 2.4)) 12, ← Real.rpow_mul hx]
  have h : ((1:ℝ) / 2.4) * (12:ℕ) = ((5:ℕ) : ℝ) := by push_cast; norm_num
  rw [h, Real.rpow_natCast]

/-- `x^(1/2.4) < c` reduces to the rational comparison `x^5 < c^12`. -/
theorem gamma_rpow_lt_of_pow (x c : ℝ) (hx : 0 ≤ x) (hc : 0 ≤ c)
    (h : x ^ (5:ℕ) < c ^ (12:ℕ)) : x ^ ((1:ℝ) / 2.4) < c := by
  apply lt_of_pow_lt_pow_left₀ 12 hc
  rw [rpow_inv_gamma_pow x hx]
  exact h

/-- `c < x^(1/2.4)` reduces to the rational comparison `c^12 < x^5`. -/
theorem gamma_lt_rpow_of_pow (x c : ℝ) (hx : 0 ≤ x)
    (h : c ^ (12:ℕ) < x ^ (5:ℕ)) : c < x ^ ((1:ℝ) / 2.4) := by
  apply lt_of_pow_lt_pow_left₀ 12 (Real.rpow_nonneg hx _)
  rw [rpow_inv_gamma_pow x hx]
  exact h

theorem accurate_srgb_at_boundary :
    AccurateLinearToSrgb 0.0031308 = 0.040449936 := by
  simp only [AccurateLinearToSrgb]
  norm_num

theorem accurate_srgb_hi_of_gt {x : ℝ} (h : (0.0031308:ℝ) < x) :
    AccurateLinearToSrgb x = |x| ^ ((1:ℝ) / 2.4) * 1.055 - 0.055 := by
  simp only [AccurateLinearToSrgb]
  rw [if_neg (not_le.mpr h)]

theorem accurate_srgb_hi_upper {x : ℝ} (h0 : 0 ≤ x)
    (hpow : x ^ (5:ℕ) < (0.090473866:ℝ) ^ (12:ℕ)) :
    |x| ^ ((1:ℝ) / 2.4) * 1.055 - 0.055 < 0.040449936 := by
  rw [abs_of_nonneg h0]
  have hc := gamma_rpow_lt_of_pow x 0.090473866 h0 (by norm_num) hpow
  linarith

end Gatling

/-! ## Claim C9 -/

/-- **C9**, counterexample: the mapping is not monotonic on `[0, 1]`.
The code's boundary test is `<=`, so at `x = 0.0031308` it returns the
linear branch `0.0031308 * 12.92 = 0.040449936`, while just above the
boundary, at `x = 0.003130801`, the power branch returns a strictly
smaller value. -/
theorem accurate_srgb_nonmonotone_cex :
    (0:ℝ) ≤ 0.0031308 ∧ (0.0031308:ℝ) < 0.003130801 ∧
    (0.003130801:ℝ) ≤ 1 ∧
    Gatling.AccurateLinearToSrgb 0.003130801 <
      Gatling.AccurateLinearToSrgb 0.0031308 := by
  refine ⟨by norm_num, by norm_num, by norm_num, ?_⟩
  rw [Gatling.accurate_srgb_at_boundary,
    Gatling.accurate_srgb_hi_of_gt (by norm_num)]
  exact Gatling.accurate_srgb_hi_upper (by norm_num) (by norm_num)

/-- **C9**, amended: `AccurateLinearToSrgb` maps 0 to 0 and 1 to 1, is
strictly increasing on each branch, and agrees with the spec's piecewise
curve everywhere on the nonnegative axis except exactly at the boundary
`0.0031308`, where the code's `<=` test takes the linear branch and sits
above the power branch by a positive jump smaller than `1e-6` (so
continuity within `1e-6` holds, but monotonicity across the boundary
fails). -/
theorem accurate_srgb_gamma_properties :
    Gatling.AccurateLinearToSrgb 0 = 0 ∧
    Gatling.AccurateLinearToSrgb 1 = 1 ∧
    (∀ x y : ℝ, 0 ≤ x → x < y → y ≤ 0.0031308 →
      Gatling.AccurateLinearToSrgb x < Gatling.AccurateLinearToSrgb y) ∧
    (∀ x y : ℝ, 0.0031308 < x → x < y →
      Gatling.AccurateLinearToSrgb x < Gatling.AccurateLinearToSrgb y) ∧
    (∀ x : ℝ, 0 ≤ x → x ≠ 0.0031308 →
      Gatling.AccurateLinearToSrgb x = Gatling.specSrgbCurve x) ∧
    0 < Gatling.AccurateLinearToSrgb 0.0031308 -
      Gatling.specSrgbCurve 0.0031308 ∧
    Gatling.AccurateLinearToSrgb 0.0031308 -
      Gatling.specSrgbCurve 0.0031308 < 1 / 1000000 := by
  have hspecb : Gatling.specSrgbCurve 0.0031308 =
      1.055 * (0.0031308:ℝ) ^ ((1:ℝ) / 2.4) - 0.055 := by
    simp only [Gatling.specSrgbCurve]
    rw [if_neg (lt_irrefl _)]
  refine ⟨?_, ?_, ?_, ?_, ?_, ?_, ?_⟩
  · simp only [Gatling.AccurateLinearToSrgb]
    norm_num
  · simp only [Gatling.AccurateLinearToSrgb]
    rw [if_neg (by norm_num)]
    rw [abs_one, Real.one_rpow]
    norm_num
  · intro x y hx hxy hyb
    simp only [Gatling.AccurateLinearToSrgb]
    rw [if_pos (by linarith), if_pos hyb]
    linarith
  · intro x y hbx hxy
    rw [Gatling.accurate_srgb_hi_of_gt hbx,
      Gatling.accurate_srgb_hi_of_gt (lt_trans hbx hxy)]
    have hx0 : (0:ℝ) ≤ x := by linarith
    rw [abs_of_nonneg hx0, abs_of_nonneg (by linarith)]
    have := @Real.rpow_lt_rpow x y ((1:ℝ) / 2.4) hx0 hxy (by norm_num)
    linarith
  · intro x hx hne
    rcases lt_trichotomy x 0.0031308 with hlt | heq | hgt
    · simp only [Gatling.AccurateLinearToSrgb, Gatling.specSrgbCurve]
      rw [if_pos (le_of_lt hlt), if_pos hlt]
      ring
    · exact absurd heq hne
    · rw [Gatling.accurate_srgb_hi_of_gt hgt]
      simp only [Gatling.specSrgbCurve]
      rw [if_neg (not_lt.mpr (le_of_lt hgt)), abs_of_nonneg hx]
      ring
  · rw [Gatling.accurate_srgb_at_boundary, hspecb]
    have hc := Gatling.gamma_rpow_lt_of_pow 0.0031308 0.090473866
      (by norm_num) (by norm_num) (by norm_num)
    linarith
  · rw [Gatling.accurate_srgb_at_boundary, hspecb]
    have hc := Gatling.gamma_lt_rpow_of_pow 0.0031308 0.090473
      (by norm_num) (by norm_num)
    linarith


namespace Gatling

/-! ## C10 component: resource constructors and handle lifetime

Shallow embedding of the handle-allocation skeleton of the
`cgpu_create_*` constructors (src/src/cgpu/src/cgpu.c).  Each constructor
allocates a handle from its resource store, performs one or more driver
calls, and on driver failure frees the handle before returning the error.
The driver calls themselves (`vkCreateSampler`, `vkCreateFence`, the
pipeline sub-steps, `vkAllocateCommandBuffers`, ...) are external; their
success/failure becomes a `Bool` parameter, and each embedded constructor
returns the outcome together with the store left behind. -/

/-- Modelled from the spec: `handle_store.{c,h}` is absent from src/
(only the `resource_store` wrapper around it is present).  Spec section
4.1 describes it as an allocator handing out handles that are valid until
freed, with freed slots recycled through a free list.  Only the
`create_handle` / `free_handle` / validity interface is exercised by the
constructors, so the store is modelled as the list of currently live
handles plus a fresh-handle counter; slot recycling and generation tags
are irrelevant to the claims below. -/
structure HandleStore where
  live : List ℕ
  next : ℕ
deriving DecidableEq

def handle_store_create_handle (s : HandleStore) : ℕ × HandleStore :=
  (s.next, ⟨s.live ++ [s.next], s.next + 1⟩)

def handle_store_free_handle (s : HandleStore) (h : ℕ) : HandleStore :=
  ⟨s.live.filter (fun x => x != h), s.next⟩

def handle_store_is_handle_valid (s : HandleStore) (h : ℕ) : Bool :=
  s.live.contains h

/-- `cgpu_create_sampler` (cgpu.c:1440-1497): allocate a handle, call
`vkCreateSampler`; on failure free the handle and report the error. -/
def cgpu_create_sampler (vkCreateSamplerOk : Bool) (store : HandleStore) :
    Except String ℕ × HandleStore :=
  let r := handle_store_create_handle store
  if vkCreateSamplerOk then (.ok r.1, r.2)
  else (.error "failed to create sampler", handle_store_free_handle r.2 r.1)

/-- `cgpu_create_fence` (cgpu.c:2643-2675): allocate a handle, call
`vkCreateFence`; on failure free the handle and report the error. -/
def cgpu_create_fence (vkCreateFenceOk : Bool) (store : HandleStore) :
    Except String ℕ × HandleStore :=
  let r := handle_store_create_handle store
  if vkCreateFenceOk then (.ok r.1, r.2)
  else (.error "failed to create fence", handle_store_free_handle r.2 r.1)

/-- `cgpu_create_pipeline` (cgpu.c:1690-1780): allocate a handle, then
create descriptors, pipeline layout and compute pipeline in order; each
failure path frees the handle (and the Vulkan objects created so far)
before reporting its error. -/
def cgpu_create_pipeline (descriptorsOk layoutOk pipelineOk : Bool)
    (store : HandleStore) : Except String ℕ × HandleStore :=
  let r := handle_store_create_handle store
  if ¬descriptorsOk then
    (.error "failed to create descriptor set layout",
      handle_store_free_handle r.2 r.1)
  else if ¬layoutOk then
    (.error "failed to create pipeline layout",
      handle_store_free_handle r.2 r.1)
  else if ¬pipelineOk then
    (.error "failed to create compute pipeline",
      handle_store_free_handle r.2 r.1)
  else (.ok r.1, r.2)

/-- `cgpu_create_shader` (cgpu.c:1070-1117): failure of module creation or
of reflection frees the handle. -/
def cgpu_create_shader (vkCreateShaderModuleOk reflectOk : Bool)
    (store : HandleStore) : Except String ℕ × HandleStore :=
  let r := handle_store_create_handle store
  if ¬vkCreateShaderModuleOk then
    (.error "failed to create shader module",
      handle_store_free_handle r.2 r.1)
  else if ¬reflectOk then
    (.error "failed to reflect shader", handle_store_free_handle r.2 r.1)
  else (.ok r.1, r.2)

/-- `cgpu_create_buffer` (cgpu.c:1145-1206): buffer-creation failure frees
the handle. -/
def cgpu_create_buffer (vmaCreateBufferOk : Bool) (store : HandleStore) :
    Except String ℕ × HandleStore :=
  let r := handle_store_create_handle store
  if vmaCreateBufferOk then (.ok r.1, r.2)
  else (.error "failed to create buffer", handle_store_free_handle r.2 r.1)

/-- `cgpu_create_image` (cgpu.c:1260-1380): failure of image creation or of
view creation frees the handle. -/
def cgpu_create_image (vmaCreateImageOk createViewOk : Bool)
    (store : HandleStore) : Except String ℕ × HandleStore :=
  let r := handle_store_create_handle store
  if ¬vmaCreateImageOk then
    (.error "failed to create image", handle_store_free_handle r.2 r.1)
  else if ¬createViewOk then
    (.error "failed to create image view", handle_store_free_handle r.2 r.1)
  else (.ok r.1, r.2)

/-- `cgpu_create_command_buffer` (cgpu.c:1819-1852): allocate a handle,
call `vkAllocateCommandBuffers`; the failure path returns the error
WITHOUT calling `resource_store_free_handle` — unlike every sibling
constructor, the freshly allocated handle stays live. -/
def cgpu_create_command_buffer (vkAllocateCommandBuffersOk : Bool)
    (store : HandleStore) : Except String ℕ × HandleStore :=
  let r := handle_store_create_handle store
  if vkAllocateCommandBuffersOk then (.ok r.1, r.2)
  else (.error "failed to allocate command buffer", r.2)

end Gatling

/-! ## Claim C10 -/

/-- **C10**: refuted for `cgpu_create_command_buffer`; the code leaks the
handle.  Starting from a store with no live handles, a failed
`cgpu_create_sampler`, `cgpu_create_fence`, `cgpu_create_shader`,
`cgpu_create_buffer`, `cgpu_create_image` and every failure path of
`cgpu_create_pipeline` leave the set of live handles empty, as the claim
says.  But when `vkAllocateCommandBuffers` fails,
`cgpu_create_command_buffer` returns its error without freeing the handle
it allocated: handle 0 remains live (and valid) in the store handed back
to the caller. -/
theorem create_command_buffer_handle_leak :
    (Gatling.cgpu_create_sampler false ⟨[], 0⟩).2.live = [] ∧
    (Gatling.cgpu_create_fence false ⟨[], 0⟩).2.live = [] ∧
    (Gatling.cgpu_create_shader false true ⟨[], 0⟩).2.live = [] ∧
    (Gatling.cgpu_create_shader true false ⟨[], 0⟩).2.live = [] ∧
    (Gatling.cgpu_create_buffer false ⟨[], 0⟩).2.live = [] ∧
    (Gatling.cgpu_create_image false true ⟨[], 0⟩).2.live = [] ∧
    (Gatling.cgpu_create_image true false ⟨[], 0⟩).2.live = [] ∧
    (Gatling.cgpu_create_pipeline false true true ⟨[], 0⟩).2.live = [] ∧
    (Gatling.cgpu_create_pipeline true false true ⟨[], 0⟩).2.live = [] ∧
    (Gatling.cgpu_create_pipeline true true false ⟨[], 0⟩).2.live = [] ∧
    (Gatling.cgpu_create_command_buffer false ⟨[], 0⟩).1 =
      .error "failed to allocate command buffer" ∧
    (Gatling.cgpu_create_command_buffer false ⟨[], 0⟩).2.live = [0] ∧
    Gatling.handle_store_is_handle_valid
      (Gatling.cgpu_create_command_buffer false ⟨[], 0⟩).2 0 = true := by
  refine ⟨rfl, rfl, rfl, rfl, rfl, rfl, rfl, rfl, rfl, rfl, rfl, rfl, rfl⟩
